import Mathlib

/-!
Verification of the QuadRay engine scene-graph core (object.cpp, embedded in
src/core/engine/engine.h) against its natural-language specification.

Conventions of the shallow embedding:
* `rt_real` (single-precision float in the source) is modelled as `ℚ`;
  values that may be `RT_INF`/`-RT_INF` are modelled by the extended type `XQ`.
  All comparisons in the translated code are exact, as in the source, which
  compares with `==`, `<=`, `>=` directly.
* `RT_SQRT` is modelled by an explicit function parameter `sq : ℚ → ℚ`;
  the translated code applies it exactly where the source calls `RT_SQRT`.
* pointers are modelled as `Option Nat` object identifiers; `RT_NULL` is `none`.
* the flag words `RT_UPDATE_FLAG_*` and the option bits of `rg->opts` are not
  under src/ (they live in object.h / engine.h option macros); they are
  modelled as distinct bits / boolean fields, which is all the translated
  code inspects.
-/

/-- Extended rationals: rt_real values together with the two infinities
`-RT_INF` and `+RT_INF` used by clipper boxes. -/
inductive XQ where
  | ninf : XQ
  | fin : ℚ → XQ
  | pinf : XQ
deriving DecidableEq, Repr

namespace XQ

/-- Order on extended rationals, matching IEEE comparisons on non-NaN data. -/
def le : XQ → XQ → Bool
  | ninf, _ => true
  | _, pinf => true
  | fin a, fin b => a ≤ b
  | fin _, ninf => false
  | pinf, fin _ => false
  | pinf, ninf => false

/-- Strict order on extended rationals. -/
def lt (a b : XQ) : Bool := ¬ le b a

/-- RT_MAX on extended rationals: `a > b ? a : b`. -/
def xmax (a b : XQ) : XQ := if lt b a then a else b

/-- RT_MIN on extended rationals: `a < b ? a : b`. -/
def xmin (a b : XQ) : XQ := if lt a b then a else b

/-- Negation of an extended rational. -/
def neg : XQ → XQ
  | ninf => pinf
  | fin a => fin (-a)
  | pinf => ninf

/-- RT_FABS on extended rationals, with the explicit branch form of the
absolute value so that it evaluates by kernel reduction. -/
def xabs : XQ → XQ
  | ninf => pinf
  | fin a => fin (if a < 0 then -a else a)
  | pinf => pinf

/-- Subtract a finite value; infinities absorb, as in IEEE arithmetic. -/
def subq : XQ → ℚ → XQ
  | ninf, _ => ninf
  | fin a, q => fin (a - q)
  | pinf, _ => pinf

/-- Add a finite value; infinities absorb, as in IEEE arithmetic. -/
def addq : XQ → ℚ → XQ
  | ninf, _ => ninf
  | fin a, q => fin (a + q)
  | pinf, _ => pinf

end XQ

/-- RT_FABS on rationals, written with an explicit branch so that it
evaluates by kernel reduction. -/
def qabs (a : ℚ) : ℚ := if a < 0 then -a else a

/-- RT_MIN on rationals, written with an explicit branch. -/
def qmin (a b : ℚ) : ℚ := if a ≤ b then a else b

/-- RT_MAX on rationals, written with an explicit branch. -/
def qmax (a b : ℚ) : ℚ := if b ≤ a then a else b

/-- A triple of components, indexed by the local axes I, J, K
(or the world axes X, Y, Z). -/
structure V3 (α : Type) where
  x : α
  y : α
  z : α
deriving DecidableEq, Repr

namespace V3

/-- Component access by axis index. -/
def get (v : V3 α) : Fin 3 → α
  | 0 => v.x
  | 1 => v.y
  | 2 => v.z

/-- Replace the component at an axis index. -/
def setAt (v : V3 α) : Fin 3 → α → V3 α
  | 0, a => ⟨a, v.y, v.z⟩
  | 1, a => ⟨v.x, a, v.z⟩
  | 2, a => ⟨v.x, v.y, a⟩

/-- Build from a component function. -/
def ofFn (f : Fin 3 → α) : V3 α := ⟨f 0, f 1, f 2⟩

/-- Constant triple. -/
def const (a : α) : V3 α := ⟨a, a, a⟩

/-- Componentwise RT_MAX (RT_VEC3_MAX). -/
def vmax (a b : V3 XQ) : V3 XQ := ⟨XQ.xmax a.x b.x, XQ.xmax a.y b.y, XQ.xmax a.z b.z⟩

/-- Componentwise RT_MIN (RT_VEC3_MIN). -/
def vmin (a b : V3 XQ) : V3 XQ := ⟨XQ.xmin a.x b.x, XQ.xmin a.y b.y, XQ.xmin a.z b.z⟩

end V3

/-! ### Update flags and option bits

The numeric values of `RT_UPDATE_FLAG_SCL` / `RT_UPDATE_FLAG_ROT` live in
object.h, which is not under src/; the translated code only needs them to be
distinct non-zero bits. Modelled from the spec: SCL and ROT are independent
flag bits of the word `obj_has_trm`. -/

/-- RT_UPDATE_FLAG_SCL bit. -/
def RT_UPDATE_FLAG_SCL : Nat := 2

/-- RT_UPDATE_FLAG_ROT bit. -/
def RT_UPDATE_FLAG_ROT : Nat := 4

/-- Runtime option bits of `rg->opts` read by the translated code
(RT_OPTS_FSCALE, RT_OPTS_TARRAY, RT_OPTS_ADJUST, RT_OPTS_VARRAY). The
compile-time `#if RT_OPTS_* != 0` guards are taken in their default
configuration (macros non-zero), leaving the runtime test on `rg->opts`. -/
structure Opts where
  fscale : Bool
  tarray : Bool
  adjust : Bool
  varray : Bool
deriving DecidableEq, Repr

/-- Count of scale components matching the trivial scalers, translated from
the loop over `scl[] = -1.0f, +1.0f` in rt_Object::update. -/
def sclCount (scl : V3 ℚ) : Nat :=
  ([-1, 1] : List ℚ).foldl
    (fun c v =>
      c + (if scl.x = v then 1 else 0)
        + (if scl.y = v then 1 else 0)
        + (if scl.z = v then 1 else 0)) 0

/-- Count of rotation components matching the trivial angles, translated from
the loop over `rot[] = -270, -180, -90, 0, +90, +180, +270` in
rt_Object::update. -/
def rotCount (rot : V3 ℚ) : Nat :=
  ([-270, -180, -90, 0, 90, 180, 270] : List ℚ).foldl
    (fun c v =>
      c + (if rot.x = v then 1 else 0)
        + (if rot.y = v then 1 else 0)
        + (if rot.z = v then 1 else 0)) 0

/-- The flag word `obj_has_trm` computed by rt_Object::update
(engine.h lines 379-415): SCL when the scale count is not 3, ROT when the
rotation count is not 3, then the FSCALE promotion that sets both bits when
the word is non-zero and the FSCALE option bit is clear. -/
def obj_has_trm (opts : Opts) (scl rot : V3 ℚ) : Nat :=
  let f : Nat := 0
  let f := f ||| (if sclCount scl = 3 then 0 else RT_UPDATE_FLAG_SCL)
  let f := f ||| (if rotCount rot = 3 then 0 else RT_UPDATE_FLAG_ROT)
  if f ≠ 0 ∧ opts.fscale = false then RT_UPDATE_FLAG_SCL ||| RT_UPDATE_FLAG_ROT
  else f

/-- Some scale component lies outside the trivial set. -/
def sclNontrivial (scl : V3 ℚ) : Prop :=
  ¬ ((scl.x = -1 ∨ scl.x = 1) ∧ (scl.y = -1 ∨ scl.y = 1) ∧ (scl.z = -1 ∨ scl.z = 1))

/-- Some rotation component lies outside the trivial set. -/
def rotNontrivial (rot : V3 ℚ) : Prop :=
  ¬ (((rot.x = -270 ∨ rot.x = -180 ∨ rot.x = -90 ∨ rot.x = 0 ∨
       rot.x = 90 ∨ rot.x = 180 ∨ rot.x = 270)) ∧
     ((rot.y = -270 ∨ rot.y = -180 ∨ rot.y = -90 ∨ rot.y = 0 ∨
       rot.y = 90 ∨ rot.y = 180 ∨ rot.y = 270)) ∧
     ((rot.z = -270 ∨ rot.z = -180 ∨ rot.z = -90 ∨ rot.z = 0 ∨
       rot.z = 90 ∨ rot.z = 180 ∨ rot.z = 270)))

instance (scl : V3 ℚ) : Decidable (sclNontrivial scl) := by
  unfold sclNontrivial; infer_instance

instance (rot : V3 ℚ) : Decidable (rotNontrivial rot) := by
  unfold rotNontrivial; infer_instance

/-- The flag word as described verbatim by the claim: SCL iff some scale
component is outside the trivial set, ROT iff some rotation component is
outside the trivial set, and with FSCALE clear a non-trivial scale (only)
promotes to both bits. -/
def obj_has_trm_claim (opts : Opts) (scl rot : V3 ℚ) : Nat :=
  let s := if sclNontrivial scl then RT_UPDATE_FLAG_SCL else 0
  let r := if rotNontrivial rot then RT_UPDATE_FLAG_ROT else 0
  if sclNontrivial scl ∧ opts.fscale = false then
    RT_UPDATE_FLAG_SCL ||| RT_UPDATE_FLAG_ROT
  else s ||| r

/-- The flag word as amended: with FSCALE clear, any non-trivial transform
(scale or rotation) forces both bits. -/
def obj_has_trm_amended (opts : Opts) (scl rot : V3 ℚ) : Nat :=
  let s := if sclNontrivial scl then RT_UPDATE_FLAG_SCL else 0
  let r := if rotNontrivial rot then RT_UPDATE_FLAG_ROT else 0
  if (sclNontrivial scl ∨ rotNontrivial rot) ∧ opts.fscale = false then
    RT_UPDATE_FLAG_SCL ||| RT_UPDATE_FLAG_ROT
  else s ||| r

/-! ### Claim C5 -/

/-! ### Scene model for trnode resolution (claim C1)

Phase 0 walks the tree top-down; `obj_has_trm` of every object depends only
on that object's own transform and the option bits, so the completed pass is
modelled functionally: a scene is a list of objects whose `parent` indices
point strictly backwards (parents are constructed before children). -/

/-- Object tags of format.h. `gtSurfaceMax` renders the source comparison
`tag > RT_TAG_SURFACE_MAX`, true exactly for cameras and lights
(RT_TAG_ARRAY is -1, surface tags are below RT_TAG_SURFACE_MAX,
camera/light are 100/101). -/
inductive OTag where
  | array | plane | cylinder | sphere | cone | paraboloid | hyperboloid
  | camera | light
deriving DecidableEq, Repr

/-- The source comparison `tag > RT_TAG_SURFACE_MAX`. -/
def OTag.gtSurfaceMax : OTag → Bool
  | .camera => true
  | .light => true
  | _ => false

/-- One scene object: parent link plus the fields of its local transform read
by rt_Object::update when resolving transform flags. -/
structure SObj where
  parent : Option Nat
  scl : V3 ℚ
  rot : V3 ℚ
  tag : OTag
deriving DecidableEq, Repr

/-- A scene is the list of its objects in construction order. -/
abbrev Scene : Type := List SObj

/-- Parent links point strictly backwards, as guaranteed by construction
order (a child is instantiated by its parent array). -/
def parentWF (s : Scene) : Bool :=
  (List.range s.length).all fun i =>
    match s[i]? with
    | some o => match o.parent with
      | some p => p < i
      | none => true
    | none => true

/-- Chain of ancestors of object `i`, nearest parent first, computed with
`i` itself as recursion fuel (parents have strictly smaller indices). -/
def ancChainAux (s : Scene) : Nat → Nat → List Nat
  | 0, _ => []
  | fuel + 1, i =>
    match (s[i]?).bind SObj.parent with
    | some p => p :: ancChainAux s fuel p
    | none => []

/-- Chain of ancestors of object `i`, nearest parent first. -/
def ancChain (s : Scene) (i : Nat) : List Nat := ancChainAux s i i

/-- The object's own transform flags are non-zero. -/
def hasTrmAt (s : Scene) (opts : Opts) (j : Nat) : Bool :=
  match s[j]? with
  | some o => obj_has_trm opts o.scl o.rot ≠ 0
  | none => false

/-- The trnode search of rt_Object::update (engine.h lines 428-434):
walk ancestors from the parent and stop at the first with non-zero
`obj_has_trm`. -/
def findTrnode (s : Scene) (opts : Opts) (i : Nat) : Option Nat :=
  (ancChain s i).find? (hasTrmAt s opts)

/-- The source comparison `tag > RT_TAG_SURFACE_MAX` evaluated on object
`i` of the scene: true exactly for cameras and lights. -/
def tagGtSurfaceMaxAt (s : Scene) (i : Nat) : Bool :=
  match s[i]? with
  | some o => o.tag.gtSurfaceMax
  | none => false

/-- The trnode pointer of object `i` after a completed update pass with the
changed flag set, translated from engine.h lines 428-488: ancestor search,
then `trnode = this` when the object has its own transform, then the collapse
to `trnode = this` when the matrix is flattened (transform caching disabled
or a non-surface non-array object). -/
def trnodeAfterUpdate (s : Scene) (opts : Opts) (i : Nat) : Option Nat :=
  let gtmax : Bool := tagGtSurfaceMaxAt s i
  let t0 := findTrnode s opts i
  let t1 := if hasTrmAt s opts i then some i else t0
  match t1 with
  | some j =>
    if j ≠ i ∧ (opts.tarray = false ∨ gtmax = true) then some i
    else some j
  | none => none

/-- The nearest ancestor-or-self whose own transform is non-trivial — the
claim's description of trnode. -/
def nearestTrmNode (s : Scene) (opts : Opts) (i : Nat) : Option Nat :=
  (i :: ancChain s i).find? (hasTrmAt s opts)

/-- The claim's trichotomy for a trnode value: self, strict ancestor or null. -/
def trnodeTrichotomy (s : Scene) (i : Nat) (t : Option Nat) : Prop :=
  (t = some i ∧ ¬ (∃ j ∈ ancChain s i, t = some j) ∧ t ≠ none) ∨
  ((∃ j ∈ ancChain s i, t = some j) ∧ t ≠ some i ∧ t ≠ none) ∨
  (t = none ∧ t ≠ some i ∧ ¬ (∃ j ∈ ancChain s i, t = some j))

instance (s : Scene) (i : Nat) (t : Option Nat) :
    Decidable (trnodeTrichotomy s i t) := by
  unfold trnodeTrichotomy; infer_instance

/-! ### Claim C1 -/

/-! ### Single-object update (claims C7, C10)

rt_Object::update is modelled as a pure state transformer. The matrix type
and operations come from rtgeom.cpp, which is not under src/; the 4x4
rational matrix product is the standard one and `matrix_from_transform` is
kept as an explicit function parameter `mft` (the update logic never
inspects matrix entries, it only composes them deterministically). -/

/-- A 4x4 rational matrix. -/
def Mat4 : Type := Fin 4 → Fin 4 → ℚ

/-- Modelled from the spec: rtgeom.cpp's `matrix_mul_matrix` is not under
src/; it is the standard 4x4 matrix product. -/
def matrix_mul_matrix (a b : Mat4) : Mat4 :=
  fun i j => Finset.univ.sum fun k => a i k * b k j

/-- The local Transform3D record: scale, Euler rotation in degrees,
position. -/
structure Trm3 where
  scl : V3 ℚ
  rot : V3 ℚ
  pos : V3 ℚ
deriving DecidableEq, Repr

/-- Fixed inputs of one rt_Object::update call: identity and tag of the
object, the incoming `flags` bits, the parent pointer, the ancestor chain
(with each ancestor's non-zero `obj_has_trm` status and matrix), the parent
matrix argument, and the animation callback. -/
structure UpdEnv where
  selfId : Nat
  tag : OTag
  flagsArr : Bool
  flagsScl : Bool
  flagsRot : Bool
  parent : Option Nat
  ancs : List (Nat × Bool)
  ancMtx : Nat → Mat4
  pmtx : Mat4
  anim : Option (Int → Int → Trm3 → Trm3)

/-- Mutable per-object state touched by rt_Object::update. -/
structure ObjState where
  time : Int
  trm : Trm3
  objChanged : Bool
  objHasTrm : Nat
  mtxHasTrm : Nat
  trnode : Option Nat
  bvnode : Option Nat
  mtx : Mat4

/-- The local transform after the animation step of rt_Object::update
(engine.h lines 351-354): the callback fires only when a callback is present
and `time` differs from the object's last-seen time; its previous-time
argument is clamped at 0. -/
def animTrm (anim : Option (Int → Int → Trm3 → Trm3)) (time : Int)
    (s : ObjState) : Trm3 :=
  match anim with
  | some f => if s.time ≠ time then f time (if s.time < 0 then 0 else s.time) s.trm
              else s.trm
  | none => s.trm

/-- Body of rt_Object::update after the animation step (engine.h lines
356-498), as a function of the mutated local transform `trm1` and the
previous state. -/
def updateBody (mft : Trm3 → Mat4) (env : UpdEnv) (opts : Opts) (time : Int)
    (trm1 : Trm3) (s : ObjState) : ObjState :=
  let objChanged := env.flagsArr || env.anim.isSome
  if objChanged = false then
    ⟨time, trm1, false, s.objHasTrm, s.mtxHasTrm, s.trnode, none, s.mtx⟩
  else
    let oht := obj_has_trm opts trm1.scl trm1.rot
    let mht := oht ||| (if env.flagsScl then RT_UPDATE_FLAG_SCL else 0) |||
                       (if env.flagsRot then RT_UPDATE_FLAG_ROT else 0)
    let trn0 := (env.ancs.find? (fun a => a.2)).map Prod.fst
    let mtx1 :=
      match trn0 with
      | some j =>
        if env.parent = some j ∧ oht = 0 ∧ mht &&& RT_UPDATE_FLAG_ROT ≠ 0 then
          mft trm1
        else if env.parent ≠ some j ∧ oht ≠ 0 then
          matrix_mul_matrix (matrix_mul_matrix (env.ancMtx j) env.pmtx) (mft trm1)
        else
          matrix_mul_matrix env.pmtx (mft trm1)
      | none => matrix_mul_matrix env.pmtx (mft trm1)
    let trn1 := if oht ≠ 0 then some env.selfId else trn0
    let res :=
      match trn1 with
      | some j =>
        if j ≠ env.selfId ∧ (opts.tarray = false ∨ env.tag.gtSurfaceMax = true) then
          (some env.selfId, matrix_mul_matrix (env.ancMtx j) mtx1)
        else (trn1, mtx1)
      | none => (trn1, mtx1)
    ⟨time, trm1, true, oht, mht, res.1, none, res.2⟩

/-- rt_Object::update as a pure state transformer (engine.h lines 349-498). -/
def rt_Object_update (mft : Trm3 → Mat4) (env : UpdEnv) (opts : Opts)
    (time : Int) (s : ObjState) : ObjState :=
  updateBody mft env opts time (animTrm env.anim time s) s

/-! ### Claim C7 -/

/-! ### Claim C10 -/

/-- rt_Object::update_bvnode (engine.h lines 503-517): refuse self-binding,
set only when no bvnode is currently bound (mode TRUE), reset only when the
current bvnode is the given one (mode FALSE). -/
def rt_Object_update_bvnode (selfId : Nat) (s : ObjState) (b : Nat)
    (mode : Bool) : ObjState :=
  if b = selfId then s
  else if mode = true ∧ s.bvnode = none then
    ⟨s.time, s.trm, s.objChanged, s.objHasTrm, s.mtxHasTrm, s.trnode, some b, s.mtx⟩
  else if mode = false ∧ s.bvnode = some b then
    ⟨s.time, s.trm, s.objChanged, s.objHasTrm, s.mtxHasTrm, s.trnode, none, s.mtx⟩
  else s

/-- rt_Camera::update_bvnode (engine.h lines 670-673): empty body. -/
def rt_Camera_update_bvnode (s : ObjState) (b : Nat) (mode : Bool) : ObjState :=
  s

/-- rt_Light::update_bvnode (engine.h lines 747-750): empty body. -/
def rt_Light_update_bvnode (s : ObjState) (b : Nat) (mode : Bool) : ObjState :=
  s

/-! ### Construction-time error handling (claim C9)

Constructors that throw are modelled in the `Except` monad; a thrown
exception aborts the computation, so no partially constructed value is
produced. -/

/-- Material property bits; the numeric values live in object.h, not under
src/, and are modelled as distinct bits. -/
def RT_PROP_TEXTURE : Nat := 1

def RT_PROP_REFLECT : Nat := 2

def RT_PROP_REFRACT : Nat := 4

def RT_PROP_SPECULAR : Nat := 8

def RT_PROP_OPAQUE : Nat := 16

def RT_PROP_TRANSP : Nat := 32

def RT_PROP_LIGHT : Nat := 64

def RT_PROP_NORMAL : Nat := 128

def RT_PROP_METAL : Nat := 256

/-- The fields of an rt_MATERIAL record read by the material constructor
(format.h): tag and the lgt/prp scalars. RT_MAT_LIGHT is tag 1,
RT_MAT_METAL tag 2. -/
structure MatRec where
  tag : Int
  lgt1 : ℚ
  prp0 : ℚ
  prp1 : ℚ
  prp2 : ℚ
deriving DecidableEq, Repr

/-- The derived property bits of rt_Material::rt_Material
(engine.h lines 3198-3206); `texW`/`texH` are the resolved texture
dimensions. -/
def rt_Material_props (m : MatRec) (texW texH : Int) : Nat :=
  let p : Nat := 0
  let p := p ||| (if texW = 1 ∧ texH = 1 then 0 else RT_PROP_TEXTURE)
  let p := p ||| (if m.prp0 = 0 then 0 else RT_PROP_REFLECT)
  let p := p ||| (if m.prp2 = 1 then 0 else RT_PROP_REFRACT)
  let p := p ||| (if m.lgt1 = 0 then 0 else RT_PROP_SPECULAR)
  let p := p ||| (if m.prp1 = 0 then RT_PROP_OPAQUE else 0)
  let p := p ||| (if m.prp1 = 1 then RT_PROP_TRANSP else 0)
  let p := p ||| (if m.tag = 1 then RT_PROP_LIGHT else RT_PROP_NORMAL)
  let p := p ||| (if m.tag = 2 then RT_PROP_METAL else 0)
  p

/-- rt_Material::rt_Material (engine.h lines 3177-3206): a null material
pointer throws, otherwise the property bits are derived. -/
def rt_Material_ctor (mat : Option MatRec) (texW texH : Int) :
    Except String Nat :=
  match mat with
  | none => Except.error "null-pointer in material"
  | some m => Except.ok (rt_Material_props m texW texH)

/-- rt_Object::rt_Object (engine.h lines 300-336): a null rt_OBJECT record
throws; otherwise time is initialized to -1, the flag words to 0 and the
trnode/bvnode pointers to null. -/
def rt_Object_ctor (obj : Option Trm3) : Except String ObjState :=
  match obj with
  | none => Except.error "null-pointer in object"
  | some trm => Except.ok ⟨-1, trm, false, 0, 0, none, none, fun _ _ => 0⟩

/-- Material pointer selection of rt_Surface::rt_Surface (engine.h lines
1437-1443): the per-object override wins over the side's material. -/
def rt_Surface_side_mat (overrideMat sideMat : Option MatRec) : Option MatRec :=
  match overrideMat with
  | some m => some m
  | none => sideMat

/-- Child construction loop of rt_Array::rt_Array: each child record is
built in order and a thrown exception aborts the whole construction. -/
def rt_Array_ctor_children (children : List (Option Trm3)) :
    Except String (List ObjState) :=
  children.mapM rt_Object_ctor

/-! ### Camera actions (claim C8) -/

/-- Camera actions of rt_Camera::update(time, action). -/
inductive CamAction where
  | moveUp | moveDown | moveLeft | moveRight | moveBack | moveForward
  | rotateLeft | rotateRight | rotateUp | rotateDown | other
deriving DecidableEq, Repr

/-- Per-unit-time camera deltas: dps (position) and drt (rotation). -/
structure CamData where
  dps : V3 ℚ
  drt : V3 ℚ
deriving DecidableEq, Repr

/-- rt_Camera::update(time, action) (engine.h lines 588-665) acting on the
local transform; `t` is the elapsed-time factor `(time - obj->time) / 50`
and `horSin`/`horCos` the cached sine/cosine of the heading. -/
def rt_Camera_update_action (cam : CamData) (horSin horCos : ℚ) (t : ℚ)
    (trm : Trm3) (action : CamAction) : Trm3 :=
  match action with
  | .moveUp =>
    ⟨trm.scl, trm.rot, ⟨trm.pos.x, trm.pos.y, trm.pos.z + cam.dps.z * t⟩⟩
  | .moveDown =>
    ⟨trm.scl, trm.rot, ⟨trm.pos.x, trm.pos.y, trm.pos.z - cam.dps.z * t⟩⟩
  | .moveLeft =>
    ⟨trm.scl, trm.rot,
     ⟨trm.pos.x - cam.dps.x * t * horCos, trm.pos.y - cam.dps.x * t * horSin,
      trm.pos.z⟩⟩
  | .moveRight =>
    ⟨trm.scl, trm.rot,
     ⟨trm.pos.x + cam.dps.x * t * horCos, trm.pos.y + cam.dps.x * t * horSin,
      trm.pos.z⟩⟩
  | .moveBack =>
    ⟨trm.scl, trm.rot,
     ⟨trm.pos.x + cam.dps.y * t * horSin, trm.pos.y - cam.dps.y * t * horCos,
      trm.pos.z⟩⟩
  | .moveForward =>
    ⟨trm.scl, trm.rot,
     ⟨trm.pos.x - cam.dps.y * t * horSin, trm.pos.y + cam.dps.y * t * horCos,
      trm.pos.z⟩⟩
  | .rotateLeft =>
    let z := trm.rot.z + cam.drt.x * t
    let z := if z ≥ 180 then z - 360 else z
    ⟨trm.scl, ⟨trm.rot.x, trm.rot.y, z⟩, trm.pos⟩
  | .rotateRight =>
    let z := trm.rot.z - cam.drt.x * t
    let z := if z ≤ -180 then z + 360 else z
    ⟨trm.scl, ⟨trm.rot.x, trm.rot.y, z⟩, trm.pos⟩
  | .rotateUp =>
    if trm.rot.x < 0 then
      let x := trm.rot.x + cam.drt.y * t
      let x := if x > 0 then 0 else x
      ⟨trm.scl, ⟨x, trm.rot.y, trm.rot.z⟩, trm.pos⟩
    else trm
  | .rotateDown =>
    if trm.rot.x > -180 then
      let x := trm.rot.x - cam.drt.y * t
      let x := if x < -180 then -180 else x
      ⟨trm.scl, ⟨x, trm.rot.y, trm.rot.z⟩, trm.pos⟩
    else trm
  | .other => trm

/-! ### Surface geometry: adjust / invert / direct / recalc minmax

Translation of the bounding/clipping box machinery of engine.h lines
1711-1971 and the shape-specific adjust_minmax overrides. `sq` models
RT_SQRT. Degenerate float products `inf * 0` (possible only for zero cone /
hyperboloid parameters combined with infinite clip boxes, which no claim
exercises) are given the finite convention noted at `xmulq`. -/

/-- Shape kinds of the surface hierarchy. -/
inductive SKind where
  | plane | cylinder | sphere | cone | paraboloid | hyperboloid
deriving DecidableEq, Repr

/-- Geometry data of one surface read by the box recalculation: shape kind
and scalars, the original local clipper box `srf->min/max`, the axis mapping
`map`/`sgn`, the position, and whether the surface is its own trnode. -/
structure SurfGeom where
  kind : SKind
  rad : ℚ
  rat : ℚ
  par : ℚ
  hyp : ℚ
  smin : V3 XQ
  smax : V3 XQ
  map : V3 (Fin 3)
  sgn : V3 Int
  pos : V3 ℚ
  trnodeSelf : Bool
deriving DecidableEq, Repr

/-- Multiply an extended rational by a finite scalar with `q ≥ 0` intended;
the IEEE-indeterminate `inf * 0` is modelled as 0. -/
def xmulq : XQ → ℚ → XQ
  | XQ.fin a, q => XQ.fin (a * q)
  | XQ.pinf, q => if q = 0 then XQ.fin 0 else XQ.pinf
  | XQ.ninf, q => if q = 0 then XQ.fin 0 else XQ.ninf

/-- RT_SQRT lifted to extended rationals (arguments are non-negative in all
translated call sites; an infinite argument yields infinity). -/
def xsqrt (sq : ℚ → ℚ) : XQ → XQ
  | XQ.fin a => XQ.fin (sq a)
  | XQ.pinf => XQ.pinf
  | XQ.ninf => XQ.pinf

/-- Base rt_Surface::adjust_minmax (engine.h lines 1711-1725), cbox part:
a source bound strictly inside the original clipper bound becomes the
corresponding infinity, otherwise it is kept. -/
def adjust_minmax_base (g : SurfGeom) (smin smax : V3 XQ) : V3 XQ × V3 XQ :=
  (⟨if XQ.lt g.smin.x smin.x then XQ.ninf else smin.x,
    if XQ.lt g.smin.y smin.y then XQ.ninf else smin.y,
    if XQ.lt g.smin.z smin.z then XQ.ninf else smin.z⟩,
   ⟨if XQ.lt smax.x g.smax.x then XQ.pinf else smax.x,
    if XQ.lt smax.y g.smax.y then XQ.pinf else smax.y,
    if XQ.lt smax.z g.smax.z then XQ.pinf else smax.z⟩)

/-- One iteration term of the sphere radius loop
(rt_Sphere::adjust_minmax, engine.h lines 2740-2756): the distance `top`
from zero to the source interval on one axis, then
`sqrt(max(rad^2 - top^2, 0))`. -/
def sphereTerm (sq : ℚ → ℚ) (rad : ℚ) (lo hi : XQ) : ℚ :=
  let top : XQ :=
    if XQ.lt (XQ.fin 0) lo then lo
    else if XQ.lt hi (XQ.fin 0) then hi.neg
    else XQ.fin 0
  match top with
  | XQ.fin t => sq (qmax (rad * rad - t * t) 0)
  | _ => sq 0

/-- The effective radii triple computed by the sphere loop, iterations
k = 0, 1, 2 shrinking the other two axes each time. -/
def sphereRads (sq : ℚ → ℚ) (rad : ℚ) (smin smax : V3 XQ) : V3 ℚ :=
  let r0 := qabs rad
  let t0 := sphereTerm sq rad smin.x smax.x
  let r1y := if r0 > t0 then t0 else r0
  let r1z := if r0 > t0 then t0 else r0
  let t1 := sphereTerm sq rad smin.y smax.y
  let r2z := if r1z > t1 then t1 else r1z
  let r2x := if r0 > t1 then t1 else r0
  let t2 := sphereTerm sq rad smin.z smax.z
  let r3x := if r2x > t2 then t2 else r2x
  let r3y := if r1y > t2 then t2 else r1y
  ⟨r3x, r3y, r2z⟩

/-- The radius bound used by cone / paraboloid / hyperboloid
adjust_minmax. -/
def quadricRad (sq : ℚ → ℚ) (g : SurfGeom) (smin smax : V3 XQ) : XQ :=
  match g.kind with
  | SKind.cone =>
    let top := XQ.xmax (XQ.xabs smin.z) (XQ.xabs smax.z)
    xmulq top (qabs g.rat)
  | SKind.paraboloid =>
    let top := XQ.xmax (if g.par < 0 then smin.z.neg else smax.z) (XQ.fin 0)
    xsqrt sq (xmulq top (qabs g.par))
  | SKind.hyperboloid =>
    let top := XQ.xmax (XQ.xabs smin.z) (XQ.xabs smax.z)
    (match top with
     | XQ.fin t => XQ.fin (sq (t * t * g.rat * g.rat + g.hyp))
     | _ => if g.rat = 0 then XQ.fin (sq g.hyp) else XQ.pinf)
  | _ => XQ.fin 0

/-- The bbox part of the shape-specific adjust_minmax overrides. -/
def adjust_minmax_bbox (sq : ℚ → ℚ) (g : SurfGeom) (smin smax : V3 XQ) :
    V3 XQ × V3 XQ :=
  match g.kind with
  | SKind.plane =>
    (⟨smin.x, smin.y, XQ.fin 0⟩, ⟨smax.x, smax.y, XQ.fin 0⟩)
  | SKind.cylinder =>
    let rad := qabs g.rad
    (⟨XQ.xmax smin.x (XQ.fin (-rad)), XQ.xmax smin.y (XQ.fin (-rad)), smin.z⟩,
     ⟨XQ.xmin smax.x (XQ.fin rad), XQ.xmin smax.y (XQ.fin rad), smax.z⟩)
  | SKind.sphere =>
    let r := sphereRads sq g.rad smin smax
    (⟨XQ.xmax smin.x (XQ.fin (-r.x)), XQ.xmax smin.y (XQ.fin (-r.y)),
      XQ.xmax smin.z (XQ.fin (-r.z))⟩,
     ⟨XQ.xmin smax.x (XQ.fin r.x), XQ.xmin smax.y (XQ.fin r.y),
      XQ.xmin smax.z (XQ.fin r.z)⟩)
  | SKind.cone =>
    let rad := quadricRad sq g smin smax
    (⟨XQ.xmax smin.x rad.neg, XQ.xmax smin.y rad.neg, smin.z⟩,
     ⟨XQ.xmin smax.x rad, XQ.xmin smax.y rad, smax.z⟩)
  | SKind.paraboloid =>
    let rad := quadricRad sq g smin smax
    (⟨XQ.xmax smin.x rad.neg, XQ.xmax smin.y rad.neg,
      if XQ.le smin.z (XQ.fin 0) ∧ 0 < g.par then XQ.fin 0 else smin.z⟩,
     ⟨XQ.xmin smax.x rad, XQ.xmin smax.y rad,
      if XQ.le (XQ.fin 0) smax.z ∧ g.par < 0 then XQ.fin 0 else smax.z⟩)
  | SKind.hyperboloid =>
    let rad := quadricRad sq g smin smax
    (⟨XQ.xmax smin.x rad.neg, XQ.xmax smin.y rad.neg, smin.z⟩,
     ⟨XQ.xmin smax.x rad, XQ.xmin smax.y rad, smax.z⟩)

/-- The cbox part of the shape-specific adjust_minmax overrides: the base
rule of rt_Surface::adjust_minmax followed by the shape's infinity
replacements. -/
def adjust_minmax_cbox (sq : ℚ → ℚ) (g : SurfGeom) (smin smax : V3 XQ) :
    V3 XQ × V3 XQ :=
  let c := adjust_minmax_base g smin smax
  match g.kind with
  | SKind.plane =>
    (⟨c.1.x, c.1.y, XQ.ninf⟩, ⟨c.2.x, c.2.y, XQ.pinf⟩)
  | SKind.cylinder =>
    let rad := qabs g.rad
    (⟨if XQ.le c.1.x (XQ.fin (-rad)) then XQ.ninf else c.1.x,
      if XQ.le c.1.y (XQ.fin (-rad)) then XQ.ninf else c.1.y, c.1.z⟩,
     ⟨if XQ.le (XQ.fin rad) c.2.x then XQ.pinf else c.2.x,
      if XQ.le (XQ.fin rad) c.2.y then XQ.pinf else c.2.y, c.2.z⟩)
  | SKind.sphere =>
    let r := sphereRads sq g.rad smin smax
    (⟨if XQ.le c.1.x (XQ.fin (-r.x)) then XQ.ninf else c.1.x,
      if XQ.le c.1.y (XQ.fin (-r.y)) then XQ.ninf else c.1.y,
      if XQ.le c.1.z (XQ.fin (-r.z)) then XQ.ninf else c.1.z⟩,
     ⟨if XQ.le (XQ.fin r.x) c.2.x then XQ.pinf else c.2.x,
      if XQ.le (XQ.fin r.y) c.2.y then XQ.pinf else c.2.y,
      if XQ.le (XQ.fin r.z) c.2.z then XQ.pinf else c.2.z⟩)
  | SKind.cone =>
    let rad := quadricRad sq g smin smax
    (⟨if XQ.le c.1.x rad.neg then XQ.ninf else c.1.x,
      if XQ.le c.1.y rad.neg then XQ.ninf else c.1.y, c.1.z⟩,
     ⟨if XQ.le rad c.2.x then XQ.pinf else c.2.x,
      if XQ.le rad c.2.y then XQ.pinf else c.2.y, c.2.z⟩)
  | SKind.paraboloid =>
    let rad := quadricRad sq g smin smax
    (⟨if XQ.le c.1.x rad.neg then XQ.ninf else c.1.x,
      if XQ.le c.1.y rad.neg then XQ.ninf else c.1.y,
      if XQ.le c.1.z (XQ.fin 0) ∧ 0 < g.par then XQ.ninf else c.1.z⟩,
     ⟨if XQ.le rad c.2.x then XQ.pinf else c.2.x,
      if XQ.le rad c.2.y then XQ.pinf else c.2.y,
      if XQ.le (XQ.fin 0) c.2.z ∧ g.par < 0 then XQ.pinf else c.2.z⟩)
  | SKind.hyperboloid =>
    let rad := quadricRad sq g smin smax
    (⟨if XQ.le c.1.x rad.neg then XQ.ninf else c.1.x,
      if XQ.le c.1.y rad.neg then XQ.ninf else c.1.y, c.1.z⟩,
     ⟨if XQ.le rad c.2.x then XQ.pinf else c.2.x,
      if XQ.le rad c.2.y then XQ.pinf else c.2.y, c.2.z⟩)

/-- rt_Surface::invert_minmax (engine.h lines 1731-1754): world to local,
translating by the position (unless the surface is its own trnode) and
gathering through the axis mapping with sign flips. -/
def invert_minmax (g : SurfGeom) (smin smax : V3 XQ) : V3 XQ × V3 XQ :=
  let pps : V3 ℚ := if g.trnodeSelf then ⟨0, 0, 0⟩ else g.pos
  let tmin : V3 XQ := ⟨smin.x.subq pps.x, smin.y.subq pps.y, smin.z.subq pps.z⟩
  let tmax : V3 XQ := ⟨smax.x.subq pps.x, smax.y.subq pps.y, smax.z.subq pps.z⟩
  (⟨if 0 < g.sgn.x then tmin.get g.map.x else (tmax.get g.map.x).neg,
    if 0 < g.sgn.y then tmin.get g.map.y else (tmax.get g.map.y).neg,
    if 0 < g.sgn.z then tmin.get g.map.z else (tmax.get g.map.z).neg⟩,
   ⟨if 0 < g.sgn.x then tmax.get g.map.x else (tmin.get g.map.x).neg,
    if 0 < g.sgn.y then tmax.get g.map.y else (tmin.get g.map.y).neg,
    if 0 < g.sgn.z then tmax.get g.map.z else (tmin.get g.map.z).neg⟩)

/-- rt_Surface::direct_minmax (engine.h lines 1760-1783): local to world,
scattering through the axis mapping with sign flips, then translating by the
position (unless the surface is its own trnode). -/
def direct_minmax (g : SurfGeom) (smin smax : V3 XQ) : V3 XQ × V3 XQ :=
  let pps : V3 ℚ := if g.trnodeSelf then ⟨0, 0, 0⟩ else g.pos
  let z : V3 XQ := V3.const (XQ.fin 0)
  let tmin :=
    ((z.setAt g.map.x (if 0 < g.sgn.x then smin.x else smax.x.neg)).setAt
        g.map.y (if 0 < g.sgn.y then smin.y else smax.y.neg)).setAt
      g.map.z (if 0 < g.sgn.z then smin.z else smax.z.neg)
  let tmax :=
    ((z.setAt g.map.x (if 0 < g.sgn.x then smax.x else smin.x.neg)).setAt
        g.map.y (if 0 < g.sgn.y then smax.y else smin.y.neg)).setAt
      g.map.z (if 0 < g.sgn.z then smax.z else smin.z.neg)
  (⟨tmin.x.addq pps.x, tmin.y.addq pps.y, tmin.z.addq pps.z⟩,
   ⟨tmax.x.addq pps.x, tmax.y.addq pps.y, tmax.z.addq pps.z⟩)

/-- A bounding box together with a clipping box. -/
abbrev Boxes : Type := (V3 XQ × V3 XQ) × (V3 XQ × V3 XQ)

/-- rt_Surface::recalc_minmax with null source (init mode), computing both
bbox and cbox from the original clipper box and the shape. -/
def recalc_minmax_init (sq : ℚ → ℚ) (g : SurfGeom) : Boxes :=
  let b := adjust_minmax_bbox sq g g.smin g.smax
  let c := adjust_minmax_cbox sq g g.smin g.smax
  (direct_minmax g b.1 b.2, direct_minmax g c.1 c.2)

/-- recalc_minmax in init mode computing only the bbox (null cbox
arguments). -/
def recalc_minmax_initB (sq : ℚ → ℚ) (g : SurfGeom) : V3 XQ × V3 XQ :=
  let b := adjust_minmax_bbox sq g g.smin g.smax
  direct_minmax g b.1 b.2

/-- recalc_minmax in accumulate mode (engine.h lines 1798-1812 and
1833-1851): invert the source box into the clipper's local frame, clamp by
the clipper's bbox rule, mark unadjusted components with infinities, map
back, and accumulate into the running cbox with max/min. -/
def recalc_minmax_accum (sq : ℚ → ℚ) (gc : SurfGeom) (smin smax pmin pmax : V3 XQ) :
    V3 XQ × V3 XQ :=
  let t := invert_minmax gc smin smax
  let b := adjust_minmax_bbox sq gc t.1 t.2
  let amin : V3 XQ :=
    ⟨if t.1.x = b.1.x then XQ.ninf else b.1.x,
     if t.1.y = b.1.y then XQ.ninf else b.1.y,
     if t.1.z = b.1.z then XQ.ninf else b.1.z⟩
  let amax : V3 XQ :=
    ⟨if t.2.x = b.2.x then XQ.pinf else b.2.x,
     if t.2.y = b.2.y then XQ.pinf else b.2.y,
     if t.2.z = b.2.z then XQ.pinf else b.2.z⟩
  let d := direct_minmax gc amin amax
  (V3.vmax pmin d.1, V3.vmin pmax d.2)

/-- recalc_minmax in apply mode (engine.h lines 1815-1822): invert the
accumulated box, clamp to the original clipper box, then adjust and map
both boxes back. -/
def recalc_minmax_apply (sq : ℚ → ℚ) (g : SurfGeom) (smin smax : V3 XQ) : Boxes :=
  let t := invert_minmax g smin smax
  let t1 := (V3.vmax t.1 g.smin, V3.vmin t.2 g.smax)
  let b := adjust_minmax_bbox sq g t1.1 t1.2
  let c := adjust_minmax_cbox sq g t1.1 t1.2
  (direct_minmax g b.1 b.2, direct_minmax g c.1 c.2)

/-! ### Custom clipper lists and rt_Surface::update_minmax (claim C2) -/

/-- Clip accumulator markers and relation codes (object.cpp / format.h). -/
def RT_ACCUM_ENTER : Int := -1

def RT_ACCUM_LEAVE : Int := 1

def RT_REL_MINUS_INNER : Int := -1

def RT_REL_MINUS_OUTER : Int := 1

/-- The rt_BOUND record referenced by a clipper list element: identity of
the owning object, its tag, trnode pointer, changed status and geometry. -/
structure Bnd where
  obj : Nat
  tag : OTag
  trnode : Option Nat
  changed : Bool
  geom : SurfGeom
deriving DecidableEq, Repr

/-- One element of a clipper list: either an accum marker (`temp == NULL`,
data is RT_ACCUM_ENTER or RT_ACCUM_LEAVE) or a reference element
(`temp != NULL`) whose data is a relation code (or, for trnode marker
elements, an opaque pointer, never compared against the codes). -/
inductive CElem where
  | mark : Int → CElem
  | node : Int → Bnd → CElem
deriving DecidableEq, Repr

/-- The surface on whose behalf update_minmax runs: geometry, trnode
pointer, and whether the object itself changed this pass. -/
structure SurfSelf where
  geom : SurfGeom
  trnode : Option Nat
  objChanged : Bool
deriving DecidableEq, Repr

/-- The continue-condition of both clipper loops of
rt_Surface::update_minmax (engine.h lines 1903-1910 and 1948-1955), for a
reference element already known not to be a marker: skip elements inside an
accum segment, arrays, planes, different-trnode surfaces and non-MINUS_OUTER
relations. -/
def clipSkipped (S : SurfSelf) (skip : Bool) (d : Int) (b : Bnd) : Bool :=
  skip = true ∨ b.tag = OTag.array ∨ b.tag = OTag.plane ∨
    b.trnode ≠ S.trnode ∨ d ≠ RT_REL_MINUS_OUTER

instance (S : SurfSelf) (skip : Bool) (d : Int) (b : Bnd) :
    Decidable (clipSkipped S skip d b = true) := by
  unfold clipSkipped; infer_instance

/-- The clippers that actually participate, in list order, threading the
skip toggle exactly as the source loops do. -/
def activeList (S : SurfSelf) : List CElem → Bool → List Bnd
  | [], _ => []
  | CElem.mark _ :: rest, skip => activeList S rest (!skip)
  | CElem.node d b :: rest, skip =>
    if clipSkipped S skip d b then activeList S rest skip
    else b :: activeList S rest skip

/-- First loop of update_minmax (engine.h lines 1892-1913): accumulate the
changed status of participating clippers. -/
def srfChangedAux (S : SurfSelf) : List CElem → Bool → Bool
  | [], _ => false
  | CElem.mark _ :: rest, skip => srfChangedAux S rest (!skip)
  | CElem.node d b :: rest, skip =>
    if clipSkipped S skip d b then srfChangedAux S rest skip
    else b.changed || srfChangedAux S rest skip

/-- Second loop of update_minmax (engine.h lines 1937-1964): let each
participating clipper accumulate bbox adjustments into the cbox. -/
def accumClippersAux (S : SurfSelf) (sq : ℚ → ℚ) (bmin bmax : V3 XQ) :
    List CElem → Bool → (V3 XQ × V3 XQ) → V3 XQ × V3 XQ
  | [], _, c => c
  | CElem.mark _ :: rest, skip, c => accumClippersAux S sq bmin bmax rest (!skip) c
  | CElem.node d b :: rest, skip, c =>
    if clipSkipped S skip d b then accumClippersAux S sq bmin bmax rest skip c
    else accumClippersAux S sq bmin bmax rest skip
      (recalc_minmax_accum sq b.geom bmin bmax c.1 c.2)

/-- rt_Surface::update_minmax (engine.h lines 1867-1971): direct path when
there are no custom clippers, the surface is its own trnode, or the ADJUST
option is off; otherwise an early return when nothing changed, then
baseline bbox, cbox accumulation over the clipper list, and the final
recomputation from the accumulated box. -/
def rt_Surface_update_minmax (opts : Opts) (sq : ℚ → ℚ) (S : SurfSelf)
    (clips : List CElem) (old : Boxes) : Boxes :=
  if clips = [] ∨ S.geom.trnodeSelf = true ∨ opts.adjust = false then
    recalc_minmax_init sq S.geom
  else
    let srfChanged := S.objChanged || srfChangedAux S clips false
    if srfChanged = false then old
    else
      let b := recalc_minmax_initB sq S.geom
      let c := accumClippersAux S sq b.1 b.2 clips false
        (V3.const XQ.ninf, V3.const XQ.pinf)
      recalc_minmax_apply sq S.geom c.1 c.2

/-- The participating clippers as the spec describes them: reference
elements that are MINUS_OUTER, not arrays, not planes, share the surface's
trnode, and lie outside accumulation segments — rendered here as "an even
number of accum markers precedes the element". -/
def specActiveClippers (S : SurfSelf) (clips : List CElem) : List Bnd :=
  (clips.foldl
    (fun (acc : List Bnd × Nat) e =>
      match e with
      | CElem.mark _ => (acc.1, acc.2 + 1)
      | CElem.node d b =>
        if acc.2 % 2 = 0 ∧ d = RT_REL_MINUS_OUTER ∧ b.tag ≠ OTag.array ∧
            b.tag ≠ OTag.plane ∧ b.trnode = S.trnode then
          (acc.1 ++ [b], acc.2)
        else (acc.1, acc.2))
    ([], 0)).1

/-- The computation described by claim C2 for the clipper path: baseline
bbox from the shape alone, cbox initialized to the infinite box, the
participating clippers folded in list order, then the final recomputation
from the accumulated box. -/
def spec_update_minmax (opts : Opts) (sq : ℚ → ℚ) (S : SurfSelf)
    (clips : List CElem) : Boxes :=
  if clips = [] ∨ S.geom.trnodeSelf = true ∨ opts.adjust = false then
    recalc_minmax_init sq S.geom
  else
    let b := recalc_minmax_initB sq S.geom
    let c := (specActiveClippers S clips).foldl
      (fun c bnd => recalc_minmax_accum sq bnd.geom b.1 b.2 c.1 c.2)
      (V3.const XQ.ninf, V3.const XQ.pinf)
    recalc_minmax_apply sq S.geom c.1 c.2

/-! ### Claim C2 -/

/-! ### Claim C3: rt_Sphere::adjust_minmax -/

/-- Per-axis shrink term as the claim words it: `top` is the maximum of
the absolute source bounds, truncated to the sphere's interior. -/
def sphereTermClaim (sq : ℚ → ℚ) (rad : ℚ) (lo hi : XQ) : ℚ :=
  let m := XQ.xmax (XQ.xabs lo) (XQ.xabs hi)
  let top : ℚ :=
    match XQ.xmin m (XQ.fin (qabs rad)) with
    | XQ.fin t => t
    | _ => qabs rad
  sq (qmax (rad * rad - top * top) 0)

/-- Effective radii as the claim words them: each axis shrunk by the other
two axes' terms computed from the maximal absolute source bounds. -/
def sphereRadsClaim (sq : ℚ → ℚ) (rad : ℚ) (smin smax : V3 XQ) : V3 ℚ :=
  let r0 := qabs rad
  let tx := sphereTermClaim sq rad smin.x smax.x
  let ty := sphereTermClaim sq rad smin.y smax.y
  let tz := sphereTermClaim sq rad smin.z smax.z
  ⟨qmin r0 (qmin ty tz), qmin r0 (qmin tx tz), qmin r0 (qmin tx ty)⟩

/-- The sphere box adjustment exactly as claim C3 states it, with the claim's
`top` (maximum absolute source bound truncated to the interior): clamp each
bbox bound to the effective radii and replace a cbox bound by the matching
infinity when it reaches or exceeds the effective radius. -/
def sphere_adjust_minmax_claim (sq : ℚ → ℚ) (g : SurfGeom) (smin smax : V3 XQ) :
    Boxes :=
  let r := sphereRadsClaim sq g.rad smin smax
  let c := adjust_minmax_base g smin smax
  ((⟨XQ.xmax smin.x (XQ.fin (-r.x)), XQ.xmax smin.y (XQ.fin (-r.y)),
     XQ.xmax smin.z (XQ.fin (-r.z))⟩,
    ⟨XQ.xmin smax.x (XQ.fin r.x), XQ.xmin smax.y (XQ.fin r.y),
     XQ.xmin smax.z (XQ.fin r.z)⟩),
   (⟨if XQ.le c.1.x (XQ.fin (-r.x)) then XQ.ninf else c.1.x,
     if XQ.le c.1.y (XQ.fin (-r.y)) then XQ.ninf else c.1.y,
     if XQ.le c.1.z (XQ.fin (-r.z)) then XQ.ninf else c.1.z⟩,
    ⟨if XQ.le (XQ.fin r.x) c.2.x then XQ.pinf else c.2.x,
     if XQ.le (XQ.fin r.y) c.2.y then XQ.pinf else c.2.y,
     if XQ.le (XQ.fin r.z) c.2.z then XQ.pinf else c.2.z⟩))

/-- Effective radii as amended: same per-axis closed form, but `top` is the
distance from zero to the source interval on that axis (smin if positive,
-smax if smax is negative, else zero), as computed by `sphereTerm`. -/
def sphereRadsAmended (sq : ℚ → ℚ) (rad : ℚ) (smin smax : V3 XQ) : V3 ℚ :=
  let r0 := qabs rad
  let tx := sphereTerm sq rad smin.x smax.x
  let ty := sphereTerm sq rad smin.y smax.y
  let tz := sphereTerm sq rad smin.z smax.z
  ⟨qmin r0 (qmin ty tz), qmin r0 (qmin tx tz), qmin r0 (qmin tx ty)⟩

/-- The sphere box adjustment with the amended `top`. -/
def sphere_adjust_minmax_amended (sq : ℚ → ℚ) (g : SurfGeom)
    (smin smax : V3 XQ) : Boxes :=
  let r := sphereRadsAmended sq g.rad smin smax
  let c := adjust_minmax_base g smin smax
  ((⟨XQ.xmax smin.x (XQ.fin (-r.x)), XQ.xmax smin.y (XQ.fin (-r.y)),
     XQ.xmax smin.z (XQ.fin (-r.z))⟩,
    ⟨XQ.xmin smax.x (XQ.fin r.x), XQ.xmin smax.y (XQ.fin r.y),
     XQ.xmin smax.z (XQ.fin r.z)⟩),
   (⟨if XQ.le c.1.x (XQ.fin (-r.x)) then XQ.ninf else c.1.x,
     if XQ.le c.1.y (XQ.fin (-r.y)) then XQ.ninf else c.1.y,
     if XQ.le c.1.z (XQ.fin (-r.z)) then XQ.ninf else c.1.z⟩,
    ⟨if XQ.le (XQ.fin r.x) c.2.x then XQ.pinf else c.2.x,
     if XQ.le (XQ.fin r.y) c.2.y then XQ.pinf else c.2.y,
     if XQ.le (XQ.fin r.z) c.2.z then XQ.pinf else c.2.z⟩))

/-! ### Claim C6: bounding polyhedra generated at construction -/

/-- The polyhedron fields set by a surface constructor: vertex, edge and
face counts, and whether the three list pointers are RT_NULL. -/
structure ShapePoly where
  verts_num : Nat
  edges_num : Nat
  faces_num : Nat
  lists_null : Bool
deriving DecidableEq, Repr

/-- The bounding polyhedron generated by the surface constructors
(rt_Plane / rt_Cylinder / rt_Sphere / rt_Cone / rt_Paraboloid /
rt_Hyperboloid, engine.h lines 2041-2084, 2546-2590, 2661-2704, 2796-2840,
2911-2957, 3036-3083) from the local clipper box and, for the paraboloid,
its parameter. The sphere constructor's empty branch is under
`if (RT_FALSE)` and never taken. -/
def surf_ctor_poly (k : SKind) (par : ℚ) (smin smax : V3 XQ) : ShapePoly :=
  match k with
  | SKind.plane =>
    if smin.x = XQ.ninf ∨ smin.y = XQ.ninf ∨ smax.x = XQ.pinf ∨ smax.y = XQ.pinf
    then ⟨0, 0, 0, true⟩ else ⟨4, 4, 1, false⟩
  | SKind.cylinder =>
    if smin.z = XQ.ninf ∨ smax.z = XQ.pinf then ⟨0, 0, 0, true⟩
    else ⟨8, 12, 6, false⟩
  | SKind.sphere =>
    if False then ⟨0, 0, 0, true⟩ else ⟨8, 12, 6, false⟩
  | SKind.cone =>
    if smin.z = XQ.ninf ∨ smax.z = XQ.pinf then ⟨0, 0, 0, true⟩
    else ⟨8, 12, 6, false⟩
  | SKind.paraboloid =>
    if (smin.z = XQ.ninf ∧ par < 0) ∨ (smax.z = XQ.pinf ∧ 0 < par)
    then ⟨0, 0, 0, true⟩ else ⟨8, 12, 6, false⟩
  | SKind.hyperboloid =>
    if smin.z = XQ.ninf ∨ smax.z = XQ.pinf then ⟨0, 0, 0, true⟩
    else ⟨8, 12, 6, false⟩

/-! ### Claim C4: trnode markers in rt_Surface::add_relation -/

/-- Accum tracking of the trnode-marker search (engine.h lines 1551-1564):
an ENTER marker met outside a segment opens one, a LEAVE marker met inside
closes it. -/
def markAcc (acc : Bool) (d : Int) : Bool :=
  let acc1 := if acc = false ∧ d = RT_ACCUM_ENTER then true else acc
  if acc1 = true ∧ d = RT_ACCUM_LEAVE then false else acc1

/-- The trnode-marker search of rt_Surface::add_relation (engine.h lines
1519-1565): scan the custom clipper list from its head for an element whose
bound record is the clipper's trnode, visible only while outside skipped
(complete) accumulation segments; a LEAVE marker met outside any segment
ends the current segment and stops the search. Returns the index of the
matching element. -/
def findTrnodeElem (tb : Bnd) : List CElem → Bool → Option Nat
  | [], _ => none
  | CElem.node _ b :: rest, acc =>
    if acc = false ∧ b = tb then some 0
    else (findTrnodeElem tb rest acc).map Nat.succ
  | CElem.mark d :: rest, acc =>
    if acc = false ∧ d = RT_ACCUM_LEAVE then none
    else (findTrnodeElem tb rest (markAcc acc d)).map Nat.succ

/-- Insert an element directly after position `i`. -/
def insertAfterIdx : List CElem → Nat → CElem → List CElem
  | [], _, _ => []
  | x :: rest, 0, e => x :: e :: rest
  | x :: rest, n + 1, e => x :: insertAfterIdx rest n e

/-- The insertion path of rt_Surface::add_relation for a clipper surface
that has its own (non-self) trnode (engine.h lines 1517-1596): if no
matching trnode element is visible, prepend the clipper and then a
dedicated trnode marker element (temp = the trnode array's bound record)
above it; otherwise insert the clipper directly under the existing
element. -/
def add_relation_insert (lst : List CElem) (rel : Int) (srfB trnB : Bnd) :
    List CElem :=
  match findTrnodeElem trnB lst false with
  | none => CElem.node 0 trnB :: CElem.node rel srfB :: lst
  | some i => insertAfterIdx lst i (CElem.node rel srfB)

/-- The elements of the current accumulation segment together with those
outside any accumulation segment — the region in which
rt_Surface::add_relation may reuse an existing trnode marker. -/
def visibleRegion : List CElem → Bool → List CElem
  | [], _ => []
  | CElem.node d b :: rest, acc =>
    if acc = false then CElem.node d b :: visibleRegion rest acc
    else visibleRegion rest acc
  | CElem.mark d :: rest, acc =>
    if acc = false ∧ d = RT_ACCUM_LEAVE then []
    else visibleRegion rest (markAcc acc d)

/-- Whether an element references the given bound record. -/
def refsBnd (tb : Bnd) : CElem → Bool
  | CElem.node _ b => b = tb
  | CElem.mark _ => false

/-- Number of elements referencing the given bound record. -/
def countRefs (tb : Bnd) (lst : List CElem) : Nat := lst.countP (refsBnd tb)

/-! ### Claim C4 -/

/-- A concrete trivial geometry used by witness instances. -/
def cgeom0 : SurfGeom :=
  ⟨SKind.plane, 0, 0, 0, 0, ⟨XQ.fin 0, XQ.fin 0, XQ.fin 0⟩,
   ⟨XQ.fin 0, XQ.fin 0, XQ.fin 0⟩, ⟨0, 1, 2⟩, ⟨1, 1, 1⟩, ⟨0, 0, 0⟩, false⟩

/-- A concrete trnode array bound record. -/
def ctrnB : Bnd := ⟨7, OTag.array, none, false, cgeom0⟩

/-- A concrete clipper surface bound record under trnode 7. -/
def csrfB : Bnd := ⟨3, OTag.sphere, some 7, false, cgeom0⟩

theorem qabs_eq_abs (a : ℚ) : qabs a = |a| := by
  unfold qabs
  split_ifs with h
  · exact (abs_of_neg h).symm
  · exact (abs_of_nonneg (le_of_not_lt h)).symm

theorem qmin_eq_min (a b : ℚ) : qmin a b = min a b := (min_def a b).symm

theorem qmax_eq_max (a b : ℚ) : qmax a b = max a b := by
  unfold qmax
  rw [max_def]
  rcases le_total a b with h | h
  · rcases eq_or_lt_of_le h with rfl | hlt
    · simp
    · rw [if_pos h, if_neg (not_le_of_lt hlt)]
  · rw [if_pos h]
    rcases eq_or_lt_of_le h with rfl | hlt
    · simp
    · rw [if_neg (not_le_of_lt hlt)]

theorem foldl_three_counters (f g h : ℚ → Nat) (l : List ℚ) (c : Nat) :
    l.foldl (fun c v => c + f v + g v + h v) c =
      c + (l.map f).sum + (l.map g).sum + (l.map h).sum := by
  induction l generalizing c with
  | nil => simp
  | cons a t ih => simp only [List.foldl, List.map, List.sum_cons]; rw [ih]; omega

theorem indicator_sum_scl (a : ℚ) :
    (([-1, 1] : List ℚ).map (fun v => if a = v then 1 else 0)).sum =
      if a = -1 ∨ a = 1 then 1 else 0 := by
  simp only [List.map, List.sum_cons, List.sum_nil]
  by_cases h1 : a = -1
  · subst h1; norm_num
  · by_cases h2 : a = 1
    · subst h2; norm_num
    · simp [h1, h2]

theorem indicator_sum_rot (a : ℚ) :
    (([-270, -180, -90, 0, 90, 180, 270] : List ℚ).map
        (fun v => if a = v then 1 else 0)).sum =
      if a = -270 ∨ a = -180 ∨ a = -90 ∨ a = 0 ∨ a = 90 ∨ a = 180 ∨ a = 270
      then 1 else 0 := by
  simp only [List.map, List.sum_cons, List.sum_nil]
  by_cases h1 : a = -270
  · subst h1; norm_num
  · by_cases h2 : a = -180
    · subst h2; norm_num
    · by_cases h3 : a = -90
      · subst h3; norm_num
      · by_cases h4 : a = 0
        · subst h4; norm_num
        · by_cases h5 : a = 90
          · subst h5; norm_num
          · by_cases h6 : a = 180
            · subst h6; norm_num
            · by_cases h7 : a = 270
              · subst h7; norm_num
              · simp [h1, h2, h3, h4, h5, h6, h7]

theorem sclCount_eq_three_iff (scl : V3 ℚ) :
    sclCount scl = 3 ↔ ¬ sclNontrivial scl := by
  unfold sclCount sclNontrivial
  rw [foldl_three_counters (fun v => if scl.x = v then 1 else 0)
        (fun v => if scl.y = v then 1 else 0)
        (fun v => if scl.z = v then 1 else 0)]
  rw [indicator_sum_scl, indicator_sum_scl, indicator_sum_scl]
  by_cases hx : scl.x = -1 ∨ scl.x = 1 <;>
  by_cases hy : scl.y = -1 ∨ scl.y = 1 <;>
  by_cases hz : scl.z = -1 ∨ scl.z = 1 <;>
    simp [hx, hy, hz]

theorem rotCount_eq_three_iff (rot : V3 ℚ) :
    rotCount rot = 3 ↔ ¬ rotNontrivial rot := by
  unfold rotCount rotNontrivial
  rw [foldl_three_counters (fun v => if rot.x = v then 1 else 0)
        (fun v => if rot.y = v then 1 else 0)
        (fun v => if rot.z = v then 1 else 0)]
  rw [indicator_sum_rot, indicator_sum_rot, indicator_sum_rot]
  by_cases hx : rot.x = -270 ∨ rot.x = -180 ∨ rot.x = -90 ∨ rot.x = 0 ∨
      rot.x = 90 ∨ rot.x = 180 ∨ rot.x = 270 <;>
  by_cases hy : rot.y = -270 ∨ rot.y = -180 ∨ rot.y = -90 ∨ rot.y = 0 ∨
      rot.y = 90 ∨ rot.y = 180 ∨ rot.y = 270 <;>
  by_cases hz : rot.z = -270 ∨ rot.z = -180 ∨ rot.z = -90 ∨ rot.z = 0 ∨
      rot.z = 90 ∨ rot.z = 180 ∨ rot.z = 270 <;>
    simp [hx, hy, hz]

theorem obj_has_trm_eq_amended (opts : Opts) (scl rot : V3 ℚ) :
    obj_has_trm opts scl rot = obj_has_trm_amended opts scl rot := by
  unfold obj_has_trm obj_has_trm_amended
  have hs := sclCount_eq_three_iff scl
  have hr := rotCount_eq_three_iff rot
  by_cases h1 : sclCount scl = 3 <;> by_cases h2 : rotCount rot = 3 <;>
  by_cases h3 : sclNontrivial scl <;> by_cases h4 : rotNontrivial rot <;>
    simp_all [RT_UPDATE_FLAG_SCL, RT_UPDATE_FLAG_ROT] <;>
    by_cases h5 : opts.fscale = false <;> simp_all

/-- C5 counterexample: with trivial scale `(1,1,1)`, rotation `(45,0,0)` and
the FSCALE bit clear, the code sets both SCL and ROT (value 6), while the
claim's description (promotion only from a non-trivial scale) yields ROT
alone (value 4). -/
theorem c5_obj_has_trm_counterexample :
    obj_has_trm ⟨false, true, true, true⟩ ⟨1, 1, 1⟩ ⟨45, 0, 0⟩ ≠
      obj_has_trm_claim ⟨false, true, true, true⟩ ⟨1, 1, 1⟩ ⟨45, 0, 0⟩ := by
  decide

/-- C5 (amended): `obj_has_trm` is the union of an SCL flag set iff some scale
component is not in the trivial set and a ROT flag set iff some rotation
component is not in the trivial set, except that when the FSCALE option bit is
clear any non-trivial transform (scale or rotation) sets both flags, forcing
the full matrix path. -/
theorem c5_obj_has_trm_correct (opts : Opts) (scl rot : V3 ℚ) :
    obj_has_trm opts scl rot = obj_has_trm_amended opts scl rot :=
  obj_has_trm_eq_amended opts scl rot

theorem ancChainAux_lt (s : Scene) (hwf : parentWF s = true) :
    ∀ fuel i j, i ≤ fuel → i < s.length → j ∈ ancChainAux s fuel i → j < i := by
  intro fuel
  induction fuel with
  | zero => intro i j _ _ hj; simp [ancChainAux] at hj
  | succ n ih =>
    intro i j hle hlen hj
    unfold ancChainAux at hj
    cases hp : (s[i]?).bind SObj.parent with
    | none => simp [hp] at hj
    | some p =>
      have hpi : p < i := by
        unfold parentWF at hwf
        rw [List.all_eq_true] at hwf
        have := hwf i (by simp [List.mem_range, hlen])
        cases ho : s[i]? with
        | none => simp [ho] at hp
        | some o =>
          simp [ho] at this hp
          cases hpp : o.parent with
          | none => simp [hpp] at hp
          | some q => simp [hpp] at this hp; omega
      rw [hp] at hj
      simp only [List.mem_cons] at hj
      cases hj with
      | inl h => omega
      | inr h =>
        have : j < p := ih p j (by omega) (by omega) h
        omega

theorem nearestTrmNode_eq (s : Scene) (opts : Opts) (i : Nat) :
    nearestTrmNode s opts i =
      if hasTrmAt s opts i then some i else findTrnode s opts i := by
  unfold nearestTrmNode findTrnode
  cases h : hasTrmAt s opts i
  · rw [List.find?_cons_of_neg _ (by simp [h])]
    simp [h]
  · rw [List.find?_cons_of_pos _ (by simp [h])]
    simp [h]

theorem findTrnode_mem (s : Scene) (opts : Opts) (i : Nat) (j : Nat)
    (h : findTrnode s opts i = some j) : j ∈ ancChain s i := by
  unfold findTrnode at h
  exact List.mem_of_find?_eq_some h

/-- C1 counterexample: a camera with trivial local transform under a root
array with non-trivial scale. The matrix-collapse path for non-surface
non-array objects (engine.h lines 477-488) makes the camera its own trnode,
while the nearest ancestor-or-self with a non-trivial own transform is the
root array, so trnode is not the nearest such node as the claim states. -/
theorem c1_trnode_counterexample :
    trnodeAfterUpdate
        [⟨none, ⟨2, 1, 1⟩, ⟨0, 0, 0⟩, OTag.array⟩,
         ⟨some 0, ⟨1, 1, 1⟩, ⟨0, 0, 0⟩, OTag.camera⟩]
        ⟨true, true, true, true⟩ 1 ≠
      nearestTrmNode
        [⟨none, ⟨2, 1, 1⟩, ⟨0, 0, 0⟩, OTag.array⟩,
         ⟨some 0, ⟨1, 1, 1⟩, ⟨0, 0, 0⟩, OTag.camera⟩]
        ⟨true, true, true, true⟩ 1 := by
  decide

/-- C1 (amended): after a completed update pass with the changed flag set,
every object's trnode is exactly one of itself, a strict ancestor, or null;
trnode equals the nearest ancestor-or-self whose own transform is
non-trivial, except that when that nearest node is a strict ancestor and
transform caching does not apply (the TARRAY option bit is clear, or the
object is neither a surface nor an array, i.e. a camera or light), the
object becomes its own trnode instead (its matrix collapsed through that
node); when transform caching applies, trnode is exactly the nearest
node. -/
theorem c1_trnode_correct (s : Scene) (opts : Opts) (i : Nat)
    (hwf : parentWF s = true) (hi : i < s.length) :
    trnodeTrichotomy s i (trnodeAfterUpdate s opts i) ∧
    (nearestTrmNode s opts i = none → trnodeAfterUpdate s opts i = none) ∧
    (nearestTrmNode s opts i = some i → trnodeAfterUpdate s opts i = some i) ∧
    (∀ j, j ≠ i → nearestTrmNode s opts i = some j →
      trnodeAfterUpdate s opts i =
        (if opts.tarray = false ∨ tagGtSurfaceMaxAt s i = true then some i
         else some j)) := by
  have hanc : ∀ j ∈ ancChain s i, j < i := fun j hj =>
    ancChainAux_lt s hwf i i j (le_refl i) hi hj
  have hne : ∀ j ∈ ancChain s i, j ≠ i := fun j hj => by
    have := hanc j hj; omega
  cases hself : hasTrmAt s opts i
  · cases hfind : findTrnode s opts i with
    | none =>
      have hT : trnodeAfterUpdate s opts i = none := by
        unfold trnodeAfterUpdate
        simp [hself, hfind]
      have hN : nearestTrmNode s opts i = none := by
        rw [nearestTrmNode_eq, hfind]
        simp [hself]
      refine ⟨?_, fun _ => hT, fun h => ?_, fun j hj h => ?_⟩
      · rw [hT]
        unfold trnodeTrichotomy
        refine Or.inr (Or.inr ⟨rfl, by simp, ?_⟩)
        rintro ⟨k, hk, hki⟩
        exact Option.noConfusion hki
      · rw [hN] at h
        exact Option.noConfusion h
      · rw [hN] at h
        exact Option.noConfusion h
    | some j0 =>
      have hj0 : j0 ∈ ancChain s i := findTrnode_mem s opts i j0 hfind
      have hj0i : j0 ≠ i := hne j0 hj0
      have hN : nearestTrmNode s opts i = some j0 := by
        rw [nearestTrmNode_eq, hfind]
        simp [hself]
      by_cases hcond : opts.tarray = false ∨ tagGtSurfaceMaxAt s i = true
      · have hT : trnodeAfterUpdate s opts i = some i := by
          unfold trnodeAfterUpdate
          simp only [hself, Bool.false_eq_true, if_false, hfind]
          rw [if_pos ⟨hj0i, hcond⟩]
        refine ⟨?_, fun h => ?_, fun h => ?_, fun j hj h => ?_⟩
        · rw [hT]
          unfold trnodeTrichotomy
          refine Or.inl ⟨rfl, ?_, by simp⟩
          rintro ⟨k, hk, hki⟩
          have := hne k hk
          rw [Option.some_inj] at hki
          exact this hki.symm
        · rw [hN] at h
          exact Option.noConfusion h
        · rw [hN] at h
          rw [Option.some_inj] at h
          exact absurd h hj0i
        · rw [hN] at h
          rw [Option.some_inj] at h
          subst h
          rw [hT, if_pos hcond]
      · have hT : trnodeAfterUpdate s opts i = some j0 := by
          unfold trnodeAfterUpdate
          simp only [hself, Bool.false_eq_true, if_false, hfind]
          rw [if_neg (fun hc => hcond hc.2)]
        refine ⟨?_, fun h => ?_, fun h => ?_, fun j hj h => ?_⟩
        · rw [hT]
          unfold trnodeTrichotomy
          refine Or.inr (Or.inl ⟨⟨j0, hj0, rfl⟩, ?_, by simp⟩)
          simp only [ne_eq, Option.some_inj]
          exact hj0i
        · rw [hN] at h
          exact Option.noConfusion h
        · rw [hN] at h
          rw [Option.some_inj] at h
          exact absurd h hj0i
        · rw [hN] at h
          rw [Option.some_inj] at h
          subst h
          rw [hT, if_neg hcond]
  · have hN : nearestTrmNode s opts i = some i := by
      rw [nearestTrmNode_eq]
      simp [hself]
    have hT : trnodeAfterUpdate s opts i = some i := by
      unfold trnodeAfterUpdate
      simp only [hself, if_true]
      rw [if_neg (fun hc => hc.1 rfl)]
    refine ⟨?_, fun h => ?_, fun _ => hT, fun j hj h => ?_⟩
    · rw [hT]
      unfold trnodeTrichotomy
      refine Or.inl ⟨rfl, ?_, by simp⟩
      rintro ⟨k, hk, hki⟩
      have := hne k hk
      rw [Option.some_inj] at hki
      exact this hki.symm
    · rw [hN] at h
      exact Option.noConfusion h
    · rw [hN] at h
      rw [Option.some_inj] at h
      exact absurd h.symm hj

/-- Witness for C1: a concrete two-object scene (transformed root array,
plane child) satisfying the hypotheses, with the conclusion evaluated. -/
theorem c1_trnode_correct_witness :
    parentWF [⟨none, ⟨3, 1, 1⟩, ⟨0, 0, 0⟩, OTag.array⟩,
              ⟨some 0, ⟨1, 1, 1⟩, ⟨0, 0, 0⟩, OTag.plane⟩] = true ∧
    1 < ([⟨none, ⟨3, 1, 1⟩, ⟨0, 0, 0⟩, OTag.array⟩,
          ⟨some 0, ⟨1, 1, 1⟩, ⟨0, 0, 0⟩, OTag.plane⟩] : Scene).length ∧
    (trnodeTrichotomy
        [⟨none, ⟨3, 1, 1⟩, ⟨0, 0, 0⟩, OTag.array⟩,
         ⟨some 0, ⟨1, 1, 1⟩, ⟨0, 0, 0⟩, OTag.plane⟩] 1
        (trnodeAfterUpdate
          [⟨none, ⟨3, 1, 1⟩, ⟨0, 0, 0⟩, OTag.array⟩,
           ⟨some 0, ⟨1, 1, 1⟩, ⟨0, 0, 0⟩, OTag.plane⟩]
          ⟨true, true, true, true⟩ 1) ∧
     (nearestTrmNode
          [⟨none, ⟨3, 1, 1⟩, ⟨0, 0, 0⟩, OTag.array⟩,
           ⟨some 0, ⟨1, 1, 1⟩, ⟨0, 0, 0⟩, OTag.plane⟩]
          ⟨true, true, true, true⟩ 1 = none →
        trnodeAfterUpdate
          [⟨none, ⟨3, 1, 1⟩, ⟨0, 0, 0⟩, OTag.array⟩,
           ⟨some 0, ⟨1, 1, 1⟩, ⟨0, 0, 0⟩, OTag.plane⟩]
          ⟨true, true, true, true⟩ 1 = none) ∧
     (nearestTrmNode
          [⟨none, ⟨3, 1, 1⟩, ⟨0, 0, 0⟩, OTag.array⟩,
           ⟨some 0, ⟨1, 1, 1⟩, ⟨0, 0, 0⟩, OTag.plane⟩]
          ⟨true, true, true, true⟩ 1 = some 1 →
        trnodeAfterUpdate
          [⟨none, ⟨3, 1, 1⟩, ⟨0, 0, 0⟩, OTag.array⟩,
           ⟨some 0, ⟨1, 1, 1⟩, ⟨0, 0, 0⟩, OTag.plane⟩]
          ⟨true, true, true, true⟩ 1 = some 1) ∧
     (∀ j, j ≠ 1 →
        nearestTrmNode
          [⟨none, ⟨3, 1, 1⟩, ⟨0, 0, 0⟩, OTag.array⟩,
           ⟨some 0, ⟨1, 1, 1⟩, ⟨0, 0, 0⟩, OTag.plane⟩]
          ⟨true, true, true, true⟩ 1 = some j →
        trnodeAfterUpdate
          [⟨none, ⟨3, 1, 1⟩, ⟨0, 0, 0⟩, OTag.array⟩,
           ⟨some 0, ⟨1, 1, 1⟩, ⟨0, 0, 0⟩, OTag.plane⟩]
          ⟨true, true, true, true⟩ 1 =
          (if (⟨true, true, true, true⟩ : Opts).tarray = false ∨
              tagGtSurfaceMaxAt
                [⟨none, ⟨3, 1, 1⟩, ⟨0, 0, 0⟩, OTag.array⟩,
                 ⟨some 0, ⟨1, 1, 1⟩, ⟨0, 0, 0⟩, OTag.plane⟩] 1 = true
           then some 1 else some j))) :=
  ⟨by decide, by decide,
   c1_trnode_correct
     [⟨none, ⟨3, 1, 1⟩, ⟨0, 0, 0⟩, OTag.array⟩,
      ⟨some 0, ⟨1, 1, 1⟩, ⟨0, 0, 0⟩, OTag.plane⟩]
     ⟨true, true, true, true⟩ 1 (by decide) (by decide)⟩

theorem rt_Object_update_time (mft : Trm3 → Mat4) (env : UpdEnv) (opts : Opts)
    (time : Int) (s : ObjState) :
    (rt_Object_update mft env opts time s).time = time := by
  unfold rt_Object_update updateBody
  cases h : (env.flagsArr || env.anim.isSome) <;> simp [h]

theorem rt_Object_update_trm (mft : Trm3 → Mat4) (env : UpdEnv) (opts : Opts)
    (time : Int) (s : ObjState) :
    (rt_Object_update mft env opts time s).trm = animTrm env.anim time s := by
  unfold rt_Object_update updateBody
  cases h : (env.flagsArr || env.anim.isSome) <;> simp [h]

theorem animTrm_of_time_eq (anim : Option (Int → Int → Trm3 → Trm3))
    (time : Int) (s : ObjState) (h : s.time = time) :
    animTrm anim time s = s.trm := by
  unfold animTrm
  cases anim <;> simp [h]

/-- C7: updating an object twice with the same time and otherwise identical
inputs is a no-op — the second call leaves the state exactly as the first
left it — and when the time equals the last-seen time the local transform is
not mutated (the animation callback fires only when the time differs). -/
theorem c7_update_idempotent (mft : Trm3 → Mat4) (env : UpdEnv) (opts : Opts)
    (time : Int) (s : ObjState) :
    rt_Object_update mft env opts time (rt_Object_update mft env opts time s) =
      rt_Object_update mft env opts time s ∧
    (s.time = time → (rt_Object_update mft env opts time s).trm = s.trm) := by
  constructor
  · have ht : (rt_Object_update mft env opts time s).time = time :=
      rt_Object_update_time mft env opts time s
    conv_lhs => rw [rt_Object_update]
    rw [animTrm_of_time_eq env.anim time _ ht, rt_Object_update_trm]
    unfold rt_Object_update updateBody
    cases h : (env.flagsArr || env.anim.isSome) <;> simp [h]
  · intro h
    rw [rt_Object_update_trm, animTrm_of_time_eq env.anim time s h]

/-- C10: update_bvnode with mode TRUE binds `b` exactly when `b` is not the
object itself and no bvnode is currently bound (never overwriting an
existing binding); with mode FALSE it resets exactly when the current
bvnode is `b`; cameras and lights ignore the call entirely; and
rt_Object::update always resets bvnode to null. -/
theorem c10_update_bvnode_correct (selfId : Nat) (s : ObjState) (b : Nat)
    (mft : Trm3 → Mat4) (env : UpdEnv) (opts : Opts) (time : Int) :
    ((rt_Object_update_bvnode selfId s b true).bvnode =
      if b ≠ selfId ∧ s.bvnode = none then some b else s.bvnode) ∧
    ((rt_Object_update_bvnode selfId s b false).bvnode =
      if b ≠ selfId ∧ s.bvnode = some b then none else s.bvnode) ∧
    (∀ mode, rt_Camera_update_bvnode s b mode = s) ∧
    (∀ mode, rt_Light_update_bvnode s b mode = s) ∧
    (rt_Object_update mft env opts time s).bvnode = none := by
  refine ⟨?_, ?_, fun _ => rfl, fun _ => rfl, ?_⟩
  · unfold rt_Object_update_bvnode
    by_cases h1 : b = selfId
    · simp [h1]
    · by_cases h2 : s.bvnode = none <;> simp [h1, h2]
  · unfold rt_Object_update_bvnode
    by_cases h1 : b = selfId
    · simp [h1]
    · by_cases h2 : s.bvnode = some b <;> simp [h1, h2]
  · unfold rt_Object_update updateBody
    cases h : (env.flagsArr || env.anim.isSome) <;> simp [h]

/-- C9: a null required pointer in the scene literal (null object record, or
a surface side whose override and side material pointers are both null)
makes construction throw, and the exception aborts array construction so no
partially constructed scene value is produced. -/
theorem c9_null_pointer_throws (texW texH : Int) :
    rt_Object_ctor none = Except.error "null-pointer in object" ∧
    rt_Material_ctor none texW texH = Except.error "null-pointer in material" ∧
    rt_Material_ctor (rt_Surface_side_mat none none) texW texH =
      Except.error "null-pointer in material" ∧
    (∀ l1 l2 : List (Option Trm3),
      rt_Array_ctor_children (l1 ++ none :: l2) =
        Except.error "null-pointer in object") := by
  refine ⟨rfl, rfl, rfl, ?_⟩
  intro l1 l2
  induction l1 with
  | nil => rfl
  | cons a t ih =>
    cases a with
    | none => rfl
    | some trm =>
      unfold rt_Array_ctor_children at ih ⊢
      simp only [List.cons_append, List.mapM_cons, ih]
      rfl

/-- C8 counterexample: starting from heading 0 (inside the claimed interval)
a ROTATE_LEFT of exactly 180 degrees (less than 360) lands on -180, which is
outside the claimed normalization interval (-180, +180]. -/
theorem c8_rotate_counterexample :
    (0 : ℚ) ≤ 180 ∧ (180 : ℚ) < 360 ∧ (-180 : ℚ) < 0 ∧ (0 : ℚ) ≤ 180 ∧
    ¬ (-180 <
        (rt_Camera_update_action ⟨⟨1, 1, 1⟩, ⟨180, 180, 0⟩⟩ 0 1 1
          ⟨⟨1, 1, 1⟩, ⟨0, 0, 0⟩, ⟨0, 0, 0⟩⟩ CamAction.rotateLeft).rot.z) := by
  refine ⟨by norm_num, by norm_num, by norm_num, by norm_num, ?_⟩
  norm_num [rt_Camera_update_action]

/-- C8 (amended): for every camera action whose rotation delta `d` satisfies
`0 ≤ d < 360`, starting from a rotation component in the closed interval
[-180, +180], each affected rotation component stays in [-180, +180]
(the boundary value -180 is reachable, via ROTATE_LEFT wrapping and the
ROTATE_DOWN clamp, so the half-open interval (-180, +180] of the claim does
not hold); move actions leave the rotation untouched. -/
theorem c8_rotation_bounds (cam : CamData) (horSin horCos t : ℚ) (trm : Trm3)
    (action : CamAction)
    (hdI0 : 0 ≤ cam.drt.x * t) (hdI1 : cam.drt.x * t < 360)
    (hdJ0 : 0 ≤ cam.drt.y * t) (hdJ1 : cam.drt.y * t < 360)
    (hz0 : -180 ≤ trm.rot.z) (hz1 : trm.rot.z ≤ 180)
    (hx0 : -180 ≤ trm.rot.x) (hx1 : trm.rot.x ≤ 180) :
    (-180 ≤ (rt_Camera_update_action cam horSin horCos t trm action).rot.z ∧
      (rt_Camera_update_action cam horSin horCos t trm action).rot.z ≤ 180) ∧
    (-180 ≤ (rt_Camera_update_action cam horSin horCos t trm action).rot.x ∧
      (rt_Camera_update_action cam horSin horCos t trm action).rot.x ≤ 180) := by
  cases action <;>
    simp only [rt_Camera_update_action] <;>
    try exact ⟨⟨hz0, hz1⟩, ⟨hx0, hx1⟩⟩
  all_goals
    split_ifs <;> refine ⟨⟨?_, ?_⟩, ?_, ?_⟩ <;> (try simp) <;> linarith

/-- Witness for C8: a concrete ROTATE_LEFT of 90 degrees from heading 170
wraps to -100 and stays within the closed interval. -/
theorem c8_rotation_bounds_witness :
    (0 ≤ (⟨⟨1, 1, 1⟩, ⟨90, 45, 0⟩⟩ : CamData).drt.x * (1 : ℚ)) ∧
    ((⟨⟨1, 1, 1⟩, ⟨90, 45, 0⟩⟩ : CamData).drt.x * (1 : ℚ) < 360) ∧
    (0 ≤ (⟨⟨1, 1, 1⟩, ⟨90, 45, 0⟩⟩ : CamData).drt.y * (1 : ℚ)) ∧
    ((⟨⟨1, 1, 1⟩, ⟨90, 45, 0⟩⟩ : CamData).drt.y * (1 : ℚ) < 360) ∧
    (-180 ≤ (⟨⟨1, 1, 1⟩, ⟨-90, 0, 170⟩, ⟨0, 0, 0⟩⟩ : Trm3).rot.z) ∧
    ((⟨⟨1, 1, 1⟩, ⟨-90, 0, 170⟩, ⟨0, 0, 0⟩⟩ : Trm3).rot.z ≤ 180) ∧
    (-180 ≤ (⟨⟨1, 1, 1⟩, ⟨-90, 0, 170⟩, ⟨0, 0, 0⟩⟩ : Trm3).rot.x) ∧
    ((⟨⟨1, 1, 1⟩, ⟨-90, 0, 170⟩, ⟨0, 0, 0⟩⟩ : Trm3).rot.x ≤ 180) ∧
    (((-180 ≤ (rt_Camera_update_action ⟨⟨1, 1, 1⟩, ⟨90, 45, 0⟩⟩ 0 1 1
          ⟨⟨1, 1, 1⟩, ⟨-90, 0, 170⟩, ⟨0, 0, 0⟩⟩ CamAction.rotateLeft).rot.z ∧
        (rt_Camera_update_action ⟨⟨1, 1, 1⟩, ⟨90, 45, 0⟩⟩ 0 1 1
          ⟨⟨1, 1, 1⟩, ⟨-90, 0, 170⟩, ⟨0, 0, 0⟩⟩ CamAction.rotateLeft).rot.z ≤ 180) ∧
      (-180 ≤ (rt_Camera_update_action ⟨⟨1, 1, 1⟩, ⟨90, 45, 0⟩⟩ 0 1 1
          ⟨⟨1, 1, 1⟩, ⟨-90, 0, 170⟩, ⟨0, 0, 0⟩⟩ CamAction.rotateLeft).rot.x ∧
        (rt_Camera_update_action ⟨⟨1, 1, 1⟩, ⟨90, 45, 0⟩⟩ 0 1 1
          ⟨⟨1, 1, 1⟩, ⟨-90, 0, 170⟩, ⟨0, 0, 0⟩⟩ CamAction.rotateLeft).rot.x ≤ 180))) :=
  ⟨by norm_num, by norm_num, by norm_num, by norm_num, by norm_num, by norm_num,
   by norm_num, by norm_num,
   c8_rotation_bounds ⟨⟨1, 1, 1⟩, ⟨90, 45, 0⟩⟩ 0 1 1
     ⟨⟨1, 1, 1⟩, ⟨-90, 0, 170⟩, ⟨0, 0, 0⟩⟩ CamAction.rotateLeft
     (by norm_num) (by norm_num) (by norm_num) (by norm_num)
     (by norm_num) (by norm_num) (by norm_num) (by norm_num)⟩

theorem accumClippersAux_eq_foldl (S : SurfSelf) (sq : ℚ → ℚ)
    (bmin bmax : V3 XQ) :
    ∀ (clips : List CElem) (skip : Bool) (c : V3 XQ × V3 XQ),
      accumClippersAux S sq bmin bmax clips skip c =
        (activeList S clips skip).foldl
          (fun c bnd => recalc_minmax_accum sq bnd.geom bmin bmax c.1 c.2) c := by
  intro clips
  induction clips with
  | nil => intro skip c; rfl
  | cons e rest ih =>
    intro skip c
    cases e with
    | mark d => simp only [accumClippersAux, activeList, ih]
    | node d b =>
      by_cases h : clipSkipped S skip d b = true
      · simp only [accumClippersAux, activeList, if_pos h, ih]
      · simp only [accumClippersAux, activeList, if_neg h, ih, List.foldl_cons]

theorem srfChangedAux_eq_any (S : SurfSelf) :
    ∀ (clips : List CElem) (skip : Bool),
      srfChangedAux S clips skip =
        (activeList S clips skip).any (fun b => b.changed) := by
  intro clips
  induction clips with
  | nil => intro skip; rfl
  | cons e rest ih =>
    intro skip
    cases e with
    | mark d => simp only [srfChangedAux, activeList, ih]
    | node d b =>
      by_cases h : clipSkipped S skip d b = true
      · simp only [srfChangedAux, activeList, if_pos h, ih]
      · simp only [srfChangedAux, activeList, if_neg h, ih, List.any_cons]

theorem parity_flip (n : Nat) :
    decide ((n + 1) % 2 = 1) = !decide (n % 2 = 1) := by
  rcases Nat.mod_two_eq_zero_or_one n with h | h <;> simp [Nat.add_mod, h]

theorem specActive_fold (S : SurfSelf) :
    ∀ (clips : List CElem) (acc : List Bnd) (n : Nat),
      (clips.foldl
        (fun (acc : List Bnd × Nat) e =>
          match e with
          | CElem.mark _ => (acc.1, acc.2 + 1)
          | CElem.node d b =>
            if acc.2 % 2 = 0 ∧ d = RT_REL_MINUS_OUTER ∧ b.tag ≠ OTag.array ∧
                b.tag ≠ OTag.plane ∧ b.trnode = S.trnode then
              (acc.1 ++ [b], acc.2)
            else (acc.1, acc.2))
        (acc, n)).1 = acc ++ activeList S clips (decide (n % 2 = 1)) := by
  intro clips
  induction clips with
  | nil => intro acc n; simp [activeList]
  | cons e rest ih =>
    intro acc n
    cases e with
    | mark d =>
      simp only [List.foldl_cons]
      rw [ih acc (n + 1), activeList, parity_flip]
    | node d b =>
      simp only [List.foldl_cons]
      rcases Nat.mod_two_eq_zero_or_one n with h0 | h0
      · by_cases hC : d = RT_REL_MINUS_OUTER ∧ b.tag ≠ OTag.array ∧
            b.tag ≠ OTag.plane ∧ b.trnode = S.trnode
        · have hskip : clipSkipped S (decide (n % 2 = 1)) d b = false := by
            rcases hC with ⟨h1, h2, h3, h4⟩
            unfold clipSkipped
            simp [h0, h1, h2, h3, h4]
          rw [if_pos ⟨h0, hC⟩, ih (acc ++ [b]) n]
          simp [activeList, hskip]
        · have hskip : clipSkipped S (decide (n % 2 = 1)) d b = true := by
            unfold clipSkipped
            simp only [decide_eq_true_eq]
            tauto
          rw [if_neg (fun h => hC h.2), ih acc n]
          simp [activeList, hskip]
      · have hskip : clipSkipped S (decide (n % 2 = 1)) d b = true := by
          unfold clipSkipped
          simp [h0]
        have hcond : ¬ (n % 2 = 0 ∧ d = RT_REL_MINUS_OUTER ∧
            b.tag ≠ OTag.array ∧ b.tag ≠ OTag.plane ∧ b.trnode = S.trnode) :=
          fun h => absurd h.1 (by omega)
        rw [if_neg hcond, ih acc n]
        simp [activeList, hskip]

theorem specActiveClippers_eq (S : SurfSelf) (clips : List CElem) :
    specActiveClippers S clips = activeList S clips false := by
  unfold specActiveClippers
  have := specActive_fold S clips [] 0
  simpa using this

/-- C2: for a surface whose object changed this pass, update_minmax takes
the direct path (bbox and cbox from the shape's adjust_minmax on the
original local clipper box) whenever there are no custom clippers, the
surface is its own trnode, or the ADJUST option bit is clear; otherwise it
computes a baseline bbox from the shape alone, initializes the cbox to the
infinite box, lets exactly the MINUS_OUTER non-plane non-array same-trnode
clippers lying outside accumulation segments accumulate bbox adjustments
into the cbox, and finally recomputes bbox and cbox from the accumulated
box. -/
theorem c2_update_minmax_correct (opts : Opts) (sq : ℚ → ℚ) (S : SurfSelf)
    (clips : List CElem) (old : Boxes) (hchg : S.objChanged = true) :
    rt_Surface_update_minmax opts sq S clips old =
      spec_update_minmax opts sq S clips := by
  unfold rt_Surface_update_minmax spec_update_minmax
  by_cases hbr : (clips = [] ∨ S.geom.trnodeSelf = true ∨ opts.adjust = false)
  · simp only [if_pos hbr]
  · simp only [if_neg hbr]
    have h1 : (S.objChanged || srfChangedAux S clips false) = true := by
      rw [hchg]; simp
    simp only [h1, Bool.true_eq_false, if_neg (by simp : ¬ (True = False))]
    rw [specActiveClippers_eq, accumClippersAux_eq_foldl]
    simp

/-- Witness for C2: a changed cylinder with one same-trnode MINUS_OUTER
sphere clipper in its custom clipper list. -/
theorem c2_update_minmax_correct_witness :
    (⟨⟨SKind.cylinder, 2, 0, 0, 0,
        ⟨XQ.fin (-5), XQ.fin (-5), XQ.fin (-4)⟩,
        ⟨XQ.fin 5, XQ.fin 5, XQ.fin 4⟩,
        ⟨0, 1, 2⟩, ⟨1, 1, 1⟩, ⟨0, 0, 0⟩, false⟩,
      some 7, true⟩ : SurfSelf).objChanged = true ∧
    rt_Surface_update_minmax ⟨true, true, true, true⟩ (fun q => q)
      ⟨⟨SKind.cylinder, 2, 0, 0, 0,
        ⟨XQ.fin (-5), XQ.fin (-5), XQ.fin (-4)⟩,
        ⟨XQ.fin 5, XQ.fin 5, XQ.fin 4⟩,
        ⟨0, 1, 2⟩, ⟨1, 1, 1⟩, ⟨0, 0, 0⟩, false⟩,
       some 7, true⟩
      [CElem.node 1 ⟨3, OTag.sphere, some 7, true,
        ⟨SKind.sphere, 1, 0, 0, 0,
         ⟨XQ.fin (-1), XQ.fin (-1), XQ.fin (-1)⟩,
         ⟨XQ.fin 1, XQ.fin 1, XQ.fin 1⟩,
         ⟨0, 1, 2⟩, ⟨1, 1, 1⟩, ⟨0, 0, 0⟩, false⟩⟩]
      ((⟨XQ.fin 0, XQ.fin 0, XQ.fin 0⟩, ⟨XQ.fin 0, XQ.fin 0, XQ.fin 0⟩),
       (⟨XQ.fin 0, XQ.fin 0, XQ.fin 0⟩, ⟨XQ.fin 0, XQ.fin 0, XQ.fin 0⟩)) =
    spec_update_minmax ⟨true, true, true, true⟩ (fun q => q)
      ⟨⟨SKind.cylinder, 2, 0, 0, 0,
        ⟨XQ.fin (-5), XQ.fin (-5), XQ.fin (-4)⟩,
        ⟨XQ.fin 5, XQ.fin 5, XQ.fin 4⟩,
        ⟨0, 1, 2⟩, ⟨1, 1, 1⟩, ⟨0, 0, 0⟩, false⟩,
       some 7, true⟩
      [CElem.node 1 ⟨3, OTag.sphere, some 7, true,
        ⟨SKind.sphere, 1, 0, 0, 0,
         ⟨XQ.fin (-1), XQ.fin (-1), XQ.fin (-1)⟩,
         ⟨XQ.fin 1, XQ.fin 1, XQ.fin 1⟩,
         ⟨0, 1, 2⟩, ⟨1, 1, 1⟩, ⟨0, 0, 0⟩, false⟩⟩] :=
  ⟨rfl,
   c2_update_minmax_correct ⟨true, true, true, true⟩ (fun q => q)
     ⟨⟨SKind.cylinder, 2, 0, 0, 0,
       ⟨XQ.fin (-5), XQ.fin (-5), XQ.fin (-4)⟩,
       ⟨XQ.fin 5, XQ.fin 5, XQ.fin 4⟩,
       ⟨0, 1, 2⟩, ⟨1, 1, 1⟩, ⟨0, 0, 0⟩, false⟩,
      some 7, true⟩
     [CElem.node 1 ⟨3, OTag.sphere, some 7, true,
       ⟨SKind.sphere, 1, 0, 0, 0,
        ⟨XQ.fin (-1), XQ.fin (-1), XQ.fin (-1)⟩,
        ⟨XQ.fin 1, XQ.fin 1, XQ.fin 1⟩,
        ⟨0, 1, 2⟩, ⟨1, 1, 1⟩, ⟨0, 0, 0⟩, false⟩⟩]
     ((⟨XQ.fin 0, XQ.fin 0, XQ.fin 0⟩, ⟨XQ.fin 0, XQ.fin 0, XQ.fin 0⟩),
      (⟨XQ.fin 0, XQ.fin 0, XQ.fin 0⟩, ⟨XQ.fin 0, XQ.fin 0, XQ.fin 0⟩))
     rfl⟩

theorem ite_gt_eq_min (a b : ℚ) : (if a > b then b else a) = qmin a b := by
  rw [qmin_eq_min]
  split_ifs with h
  · exact (min_eq_right (le_of_lt h)).symm
  · exact (min_eq_left (le_of_not_lt h)).symm

theorem sphereRads_eq_amended (sq : ℚ → ℚ) (rad : ℚ) (smin smax : V3 XQ) :
    sphereRads sq rad smin smax = sphereRadsAmended sq rad smin smax := by
  unfold sphereRads sphereRadsAmended
  simp only [ite_gt_eq_min]
  simp [qmin_eq_min, min_assoc]

/-- C3 counterexample: radius-5 sphere, source box ([-10,10], [-10,10],
[3,4]), square root evaluated exactly on the perfect squares that occur.
The code's `top` on the K axis is the interval's distance from zero (3),
giving effective radius 4 on I/J; the claim's `top` (maximum absolute
bound truncated to the interior) gives different radii, so the claimed
boxes differ from the computed ones. -/
theorem c3_sphere_adjust_counterexample :
    (adjust_minmax_bbox
        (fun q => if q = 16 then 4 else if q = 9 then 3 else if q = 25 then 5 else 0)
        ⟨SKind.sphere, 5, 0, 0, 0,
         ⟨XQ.fin (-10), XQ.fin (-10), XQ.fin 3⟩,
         ⟨XQ.fin 10, XQ.fin 10, XQ.fin 4⟩,
         ⟨0, 1, 2⟩, ⟨1, 1, 1⟩, ⟨0, 0, 0⟩, false⟩
        ⟨XQ.fin (-10), XQ.fin (-10), XQ.fin 3⟩
        ⟨XQ.fin 10, XQ.fin 10, XQ.fin 4⟩,
      adjust_minmax_cbox
        (fun q => if q = 16 then 4 else if q = 9 then 3 else if q = 25 then 5 else 0)
        ⟨SKind.sphere, 5, 0, 0, 0,
         ⟨XQ.fin (-10), XQ.fin (-10), XQ.fin 3⟩,
         ⟨XQ.fin 10, XQ.fin 10, XQ.fin 4⟩,
         ⟨0, 1, 2⟩, ⟨1, 1, 1⟩, ⟨0, 0, 0⟩, false⟩
        ⟨XQ.fin (-10), XQ.fin (-10), XQ.fin 3⟩
        ⟨XQ.fin 10, XQ.fin 10, XQ.fin 4⟩) ≠
      sphere_adjust_minmax_claim
        (fun q => if q = 16 then 4 else if q = 9 then 3 else if q = 25 then 5 else 0)
        ⟨SKind.sphere, 5, 0, 0, 0,
         ⟨XQ.fin (-10), XQ.fin (-10), XQ.fin 3⟩,
         ⟨XQ.fin 10, XQ.fin 10, XQ.fin 4⟩,
         ⟨0, 1, 2⟩, ⟨1, 1, 1⟩, ⟨0, 0, 0⟩, false⟩
        ⟨XQ.fin (-10), XQ.fin (-10), XQ.fin 3⟩
        ⟨XQ.fin 10, XQ.fin 10, XQ.fin 4⟩ := by
  intro h
  have hx := congrArg (fun b : Boxes => b.1.2.x) h
  norm_num [adjust_minmax_bbox, adjust_minmax_cbox, sphere_adjust_minmax_claim,
    sphereRads, sphereRadsClaim, sphereTerm, sphereTermClaim,
    adjust_minmax_base, qabs, qmin, qmax, XQ.lt, XQ.le, XQ.xmax, XQ.xmin,
    XQ.xabs, XQ.neg] at hx

/-- C3 (amended): for every sphere surface and source box, adjust_minmax
derives per axis k a value `top` equal to the distance from zero to the
source interval on that axis (smin[k] if positive, -smax[k] if smax[k] is
negative, else 0), shrinks the effective radius on the other two axes to
`sqrt(max(r^2 - top^2, 0))`, clamps each bbox bound to the corresponding
effective radius, and replaces a cbox bound (already filtered by the base
original-clipper rule) by the corresponding infinity exactly when it reaches
or exceeds the effective radius on that axis. -/
theorem c3_sphere_adjust_correct (sq : ℚ → ℚ) (g : SurfGeom)
    (smin smax : V3 XQ) (hk : g.kind = SKind.sphere) :
    (adjust_minmax_bbox sq g smin smax, adjust_minmax_cbox sq g smin smax) =
      sphere_adjust_minmax_amended sq g smin smax := by
  obtain ⟨k, rad, rat, par, hyp, smin0, smax0, map0, sgn0, pos0, ts⟩ := g
  simp only at hk
  subst hk
  simp only [adjust_minmax_bbox, adjust_minmax_cbox,
    sphere_adjust_minmax_amended, sphereRads_eq_amended]

/-- Witness for C3: the amended description evaluated on the radius-5
sphere with the K interval [3,4]. -/
theorem c3_sphere_adjust_correct_witness :
    (⟨SKind.sphere, 5, 0, 0, 0,
      ⟨XQ.fin (-10), XQ.fin (-10), XQ.fin 3⟩,
      ⟨XQ.fin 10, XQ.fin 10, XQ.fin 4⟩,
      ⟨0, 1, 2⟩, ⟨1, 1, 1⟩, ⟨0, 0, 0⟩, false⟩ : SurfGeom).kind =
        SKind.sphere ∧
    (adjust_minmax_bbox
        (fun q => if q = 16 then 4 else if q = 9 then 3 else if q = 25 then 5 else 0)
        ⟨SKind.sphere, 5, 0, 0, 0,
         ⟨XQ.fin (-10), XQ.fin (-10), XQ.fin 3⟩,
         ⟨XQ.fin 10, XQ.fin 10, XQ.fin 4⟩,
         ⟨0, 1, 2⟩, ⟨1, 1, 1⟩, ⟨0, 0, 0⟩, false⟩
        ⟨XQ.fin (-10), XQ.fin (-10), XQ.fin 3⟩
        ⟨XQ.fin 10, XQ.fin 10, XQ.fin 4⟩,
      adjust_minmax_cbox
        (fun q => if q = 16 then 4 else if q = 9 then 3 else if q = 25 then 5 else 0)
        ⟨SKind.sphere, 5, 0, 0, 0,
         ⟨XQ.fin (-10), XQ.fin (-10), XQ.fin 3⟩,
         ⟨XQ.fin 10, XQ.fin 10, XQ.fin 4⟩,
         ⟨0, 1, 2⟩, ⟨1, 1, 1⟩, ⟨0, 0, 0⟩, false⟩
        ⟨XQ.fin (-10), XQ.fin (-10), XQ.fin 3⟩
        ⟨XQ.fin 10, XQ.fin 10, XQ.fin 4⟩) =
      sphere_adjust_minmax_amended
        (fun q => if q = 16 then 4 else if q = 9 then 3 else if q = 25 then 5 else 0)
        ⟨SKind.sphere, 5, 0, 0, 0,
         ⟨XQ.fin (-10), XQ.fin (-10), XQ.fin 3⟩,
         ⟨XQ.fin 10, XQ.fin 10, XQ.fin 4⟩,
         ⟨0, 1, 2⟩, ⟨1, 1, 1⟩, ⟨0, 0, 0⟩, false⟩
        ⟨XQ.fin (-10), XQ.fin (-10), XQ.fin 3⟩
        ⟨XQ.fin 10, XQ.fin 10, XQ.fin 4⟩ :=
  ⟨rfl,
   c3_sphere_adjust_correct
     (fun q => if q = 16 then 4 else if q = 9 then 3 else if q = 25 then 5 else 0)
     ⟨SKind.sphere, 5, 0, 0, 0,
      ⟨XQ.fin (-10), XQ.fin (-10), XQ.fin 3⟩,
      ⟨XQ.fin 10, XQ.fin 10, XQ.fin 4⟩,
      ⟨0, 1, 2⟩, ⟨1, 1, 1⟩, ⟨0, 0, 0⟩, false⟩
     ⟨XQ.fin (-10), XQ.fin (-10), XQ.fin 3⟩
     ⟨XQ.fin 10, XQ.fin 10, XQ.fin 4⟩ rfl⟩

/-- C6 counterexample: a sphere whose local clipper box is unbounded on all
axes still generates the full 8-vertex polyhedron (its constructor's empty
branch is dead code under `if (RT_FALSE)`), contradicting the claim that
every such surface has an empty polyhedron. -/
theorem c6_sphere_poly_counterexample :
    surf_ctor_poly SKind.sphere 0 (V3.const XQ.ninf) (V3.const XQ.pinf) ≠
      (⟨0, 0, 0, true⟩ : ShapePoly) := by
  decide

/-- C6 (amended): for every plane, cylinder, cone, hyperboloid, or
paraboloid with a non-zero parameter, a local clipper box unbounded on all
axes yields an empty polyhedron (zero vertex, edge and face counts and null
lists); a sphere, being intrinsically bounded, always generates the
8-vertex polyhedron. In both cases the surface still participates in
intersection tests over its full analytic extent: with the all-infinite
box the clipping box stays all-infinite on every axis, so no backend clip
test is enabled. -/
theorem c6_unbounded_clipper_empty_poly (k : SKind) (par : ℚ) (sq : ℚ → ℚ)
    (g : SurfGeom) (hk : k ≠ SKind.sphere)
    (hpar : k = SKind.paraboloid → par ≠ 0)
    (hgmin : g.smin = V3.const XQ.ninf) (hgmax : g.smax = V3.const XQ.pinf) :
    surf_ctor_poly k par (V3.const XQ.ninf) (V3.const XQ.pinf) =
      (⟨0, 0, 0, true⟩ : ShapePoly) ∧
    surf_ctor_poly SKind.sphere par (V3.const XQ.ninf) (V3.const XQ.pinf) =
      (⟨8, 12, 6, false⟩ : ShapePoly) ∧
    adjust_minmax_cbox sq g g.smin g.smax =
      (V3.const XQ.ninf, V3.const XQ.pinf) := by
  refine ⟨?_, rfl, ?_⟩
  · cases k with
    | sphere => exact absurd rfl hk
    | paraboloid =>
      have hp := hpar rfl
      rcases lt_trichotomy par 0 with h | h | h
      · simp [surf_ctor_poly, V3.const, h]
      · exact absurd h hp
      · simp [surf_ctor_poly, V3.const, h]
    | plane => simp [surf_ctor_poly, V3.const]
    | cylinder => simp [surf_ctor_poly, V3.const]
    | cone => simp [surf_ctor_poly, V3.const]
    | hyperboloid => simp [surf_ctor_poly, V3.const]
  · rw [hgmin, hgmax]
    unfold adjust_minmax_cbox adjust_minmax_base
    cases hkg : g.kind <;>
      simp [V3.const, XQ.lt, XQ.le, ite_self]

/-- Witness for C6: a cylinder with the all-infinite clipper box. -/
theorem c6_unbounded_clipper_empty_poly_witness :
    (SKind.cylinder ≠ SKind.sphere) ∧
    (SKind.cylinder = SKind.paraboloid → (1 : ℚ) ≠ 0) ∧
    ((⟨SKind.cylinder, 2, 0, 0, 0, V3.const XQ.ninf, V3.const XQ.pinf,
       ⟨0, 1, 2⟩, ⟨1, 1, 1⟩, ⟨0, 0, 0⟩, false⟩ : SurfGeom).smin =
        V3.const XQ.ninf) ∧
    ((⟨SKind.cylinder, 2, 0, 0, 0, V3.const XQ.ninf, V3.const XQ.pinf,
       ⟨0, 1, 2⟩, ⟨1, 1, 1⟩, ⟨0, 0, 0⟩, false⟩ : SurfGeom).smax =
        V3.const XQ.pinf) ∧
    (surf_ctor_poly SKind.cylinder 1 (V3.const XQ.ninf) (V3.const XQ.pinf) =
        (⟨0, 0, 0, true⟩ : ShapePoly) ∧
      surf_ctor_poly SKind.sphere 1 (V3.const XQ.ninf) (V3.const XQ.pinf) =
        (⟨8, 12, 6, false⟩ : ShapePoly) ∧
      adjust_minmax_cbox (fun q => q)
          ⟨SKind.cylinder, 2, 0, 0, 0, V3.const XQ.ninf, V3.const XQ.pinf,
           ⟨0, 1, 2⟩, ⟨1, 1, 1⟩, ⟨0, 0, 0⟩, false⟩
          (⟨SKind.cylinder, 2, 0, 0, 0, V3.const XQ.ninf, V3.const XQ.pinf,
            ⟨0, 1, 2⟩, ⟨1, 1, 1⟩, ⟨0, 0, 0⟩, false⟩ : SurfGeom).smin
          (⟨SKind.cylinder, 2, 0, 0, 0, V3.const XQ.ninf, V3.const XQ.pinf,
            ⟨0, 1, 2⟩, ⟨1, 1, 1⟩, ⟨0, 0, 0⟩, false⟩ : SurfGeom).smax =
        (V3.const XQ.ninf, V3.const XQ.pinf)) :=
  ⟨by decide, fun h => by decide, rfl, rfl,
   c6_unbounded_clipper_empty_poly SKind.cylinder 1 (fun q => q)
     ⟨SKind.cylinder, 2, 0, 0, 0, V3.const XQ.ninf, V3.const XQ.pinf,
      ⟨0, 1, 2⟩, ⟨1, 1, 1⟩, ⟨0, 0, 0⟩, false⟩
     (by decide) (fun h => by decide) rfl rfl⟩

theorem findTrnodeElem_spec (tb : Bnd) :
    ∀ (lst : List CElem) (acc : Bool),
      (findTrnodeElem tb lst acc).isSome =
        (visibleRegion lst acc).any (refsBnd tb) := by
  intro lst
  induction lst with
  | nil => intro acc; rfl
  | cons e rest ih =>
    intro acc
    cases e with
    | node d b =>
      by_cases h : acc = false ∧ b = tb
      · rcases h with ⟨h1, h2⟩
        simp [findTrnodeElem, visibleRegion, h1, h2, refsBnd]
      · rw [findTrnodeElem, if_neg h]
        by_cases h1 : acc = false
        · subst h1
          have h2 : ¬ b = tb := fun hb => h ⟨rfl, hb⟩
          simp [visibleRegion, refsBnd, h2, ih, Option.isSome_map]
        · have hacc : acc = true := by
            cases acc
            · exact absurd rfl h1
            · rfl
          subst hacc
          simp [visibleRegion, ih, Option.isSome_map]
    | mark d =>
      by_cases h : acc = false ∧ d = RT_ACCUM_LEAVE
      · rcases h with ⟨h1, h2⟩
        simp [findTrnodeElem, visibleRegion, h1, h2]
      · rw [findTrnodeElem, if_neg h]
        rw [visibleRegion, if_neg h]
        simp [ih, Option.isSome_map]

theorem findTrnodeElem_at (tb : Bnd) :
    ∀ (lst : List CElem) (acc : Bool) (i : Nat),
      findTrnodeElem tb lst acc = some i →
      ∃ d b, lst[i]? = some (CElem.node d b) ∧ b = tb := by
  intro lst
  induction lst with
  | nil => intro acc i h; simp [findTrnodeElem] at h
  | cons e rest ih =>
    intro acc i h
    cases e with
    | node d b =>
      by_cases hc : acc = false ∧ b = tb
      · rw [findTrnodeElem, if_pos hc] at h
        cases h
        exact ⟨d, b, by simp, hc.2⟩
      · rw [findTrnodeElem, if_neg hc] at h
        cases hfind : findTrnodeElem tb rest acc with
        | none => rw [hfind] at h; exact Option.noConfusion h
        | some j =>
          rw [hfind] at h
          simp only [Option.map_some'] at h
          cases h
          obtain ⟨d0, b0, hget, hb⟩ := ih acc j hfind
          refine ⟨d0, b0, ?_, hb⟩
          rw [List.getElem?_cons_succ]
          exact hget
    | mark d =>
      by_cases hc : acc = false ∧ d = RT_ACCUM_LEAVE
      · rw [findTrnodeElem, if_pos hc] at h
        cases h
      · rw [findTrnodeElem, if_neg hc] at h
        cases hfind : findTrnodeElem tb rest (markAcc acc d) with
        | none => rw [hfind] at h; exact Option.noConfusion h
        | some j =>
          rw [hfind] at h
          simp only [Option.map_some'] at h
          cases h
          obtain ⟨d0, b0, hget, hb⟩ := ih _ j hfind
          refine ⟨d0, b0, ?_, hb⟩
          rw [List.getElem?_cons_succ]
          exact hget

theorem insertAfterIdx_decomp :
    ∀ (lst : List CElem) (i : Nat) (e x : CElem), lst[i]? = some x →
      insertAfterIdx lst i e = lst.take (i + 1) ++ e :: lst.drop (i + 1) := by
  intro lst
  induction lst with
  | nil => intro i e x h; simp at h
  | cons y rest ih =>
    intro i e x h
    cases i with
    | zero => rfl
    | succ n =>
      rw [List.getElem?_cons_succ] at h
      simp only [insertAfterIdx, List.take_succ_cons, List.drop_succ_cons,
        List.cons_append]
      rw [ih n e x h]

/-- C4: when a clipper surface with its own (non-self) trnode is added to a
surface's custom clipper list, (1) if no element for that trnode is visible
a dedicated trnode marker element is inserted directly before the clipper,
adding exactly one reference to the trnode; (2) if such an element exists
within the current accumulation segment (or outside any accumulation
segment) the clipper is inserted directly under it and no new marker is
created; (3) the search succeeds exactly when a matching element lies in
the visible region. Consequently clippers sharing a trnode end up after a
single marker for that trnode. -/
theorem c4_add_relation_trnode_marker (lst : List CElem) (rel : Int)
    (srfB trnB : Bnd) (hsb : srfB ≠ trnB) :
    (findTrnodeElem trnB lst false = none →
      add_relation_insert lst rel srfB trnB =
        CElem.node 0 trnB :: CElem.node rel srfB :: lst ∧
      countRefs trnB (add_relation_insert lst rel srfB trnB) =
        countRefs trnB lst + 1) ∧
    (∀ i, findTrnodeElem trnB lst false = some i →
      ∃ d b, lst[i]? = some (CElem.node d b) ∧ b = trnB ∧
        add_relation_insert lst rel srfB trnB =
          lst.take (i + 1) ++ CElem.node rel srfB :: lst.drop (i + 1) ∧
        countRefs trnB (add_relation_insert lst rel srfB trnB) =
          countRefs trnB lst) ∧
    ((findTrnodeElem trnB lst false).isSome =
      (visibleRegion lst false).any (refsBnd trnB)) := by
  refine ⟨?_, ?_, findTrnodeElem_spec trnB lst false⟩
  · intro h
    unfold add_relation_insert
    rw [h]
    refine ⟨rfl, ?_⟩
    simp [countRefs, List.countP_cons, refsBnd, hsb]
  · intro i h
    obtain ⟨d, b, hget, hb⟩ := findTrnodeElem_at trnB lst false i h
    refine ⟨d, b, hget, hb, ?_, ?_⟩
    · unfold add_relation_insert
      rw [h]
      exact insertAfterIdx_decomp lst i (CElem.node rel srfB) _ hget
    · unfold add_relation_insert
      rw [h]
      show countRefs trnB (insertAfterIdx lst i (CElem.node rel srfB)) =
        countRefs trnB lst
      rw [insertAfterIdx_decomp lst i (CElem.node rel srfB) _ hget]
      unfold countRefs
      rw [List.countP_append, List.countP_cons]
      have hlst : lst.take (i + 1) ++ lst.drop (i + 1) = lst :=
        List.take_append_drop (i + 1) lst
      conv_rhs => rw [← hlst]
      rw [List.countP_append]
      have : refsBnd trnB (CElem.node rel srfB) = false := by
        simp [refsBnd, hsb]
      rw [this]
      simp

/-- Witness for C4: inserting a clipper into a list that already holds a
visible trnode element for its trnode. -/
theorem c4_add_relation_trnode_marker_witness :
    csrfB ≠ ctrnB ∧
    ((findTrnodeElem ctrnB [CElem.node 0 ctrnB] false = none →
      add_relation_insert [CElem.node 0 ctrnB] 1 csrfB ctrnB =
        CElem.node 0 ctrnB :: CElem.node 1 csrfB :: [CElem.node 0 ctrnB] ∧
      countRefs ctrnB (add_relation_insert [CElem.node 0 ctrnB] 1 csrfB ctrnB) =
        countRefs ctrnB [CElem.node 0 ctrnB] + 1) ∧
    (∀ i, findTrnodeElem ctrnB [CElem.node 0 ctrnB] false = some i →
      ∃ d b, ([CElem.node 0 ctrnB] : List CElem)[i]? =
          some (CElem.node d b) ∧ b = ctrnB ∧
        add_relation_insert [CElem.node 0 ctrnB] 1 csrfB ctrnB =
          ([CElem.node 0 ctrnB] : List CElem).take (i + 1) ++
            CElem.node 1 csrfB :: ([CElem.node 0 ctrnB] : List CElem).drop (i + 1) ∧
        countRefs ctrnB (add_relation_insert [CElem.node 0 ctrnB] 1 csrfB ctrnB) =
          countRefs ctrnB [CElem.node 0 ctrnB]) ∧
    ((findTrnodeElem ctrnB [CElem.node 0 ctrnB] false).isSome =
      (visibleRegion [CElem.node 0 ctrnB] false).any (refsBnd ctrnB))) :=
  ⟨by decide,
   c4_add_relation_trnode_marker [CElem.node 0 ctrnB] 1 csrfB ctrnB (by decide)⟩
